import Mathlib

/-!
Verification of the core of an NES emulator: a shallow embedding of
`src/cpu.rs`, `src/apu/mod.rs` and `src/mappers/nrom.rs`, with theorems
settling the specification's claims about them.

Machine integers are embedded as `Nat` with explicit reductions modulo
256 and 65536 where the source wraps.  Byte arrays are embedded as total
maps `Nat → Nat`.  Code that panics is embedded as `Option`-returning.
-/

namespace Nes

/-- Modelled from the spec: `common.rs` is not under `src/`.  `join_bytes high low`
joins a high byte and a low byte into a 16-bit word. -/
def join_bytes (high low : Nat) : Nat := high * 256 + low

/-- Pointwise update of a byte store modelled as a total map. -/
def updateFn (f : Nat → Nat) (i v : Nat) : Nat → Nat := fun j => if j = i then v else f j

/-! ## Mapper (src/mappers/nrom.rs) -/

/-- Mapper 000 supports ROM sizes of either 16 or 32 KB (`enum RomSize`). -/
inductive RomSize
| sixteen
| thirtyTwo
deriving DecidableEq

/-- Nametable mirror modes, from `mappers/mod.rs` (declared outside `src/`). -/
inductive NametableMirror
| horizontal
| vertical
deriving DecidableEq

/-- Modelled from the spec: `mappers/mod.rs` (`NametableMirror::mirrored_addr`) is
not under `src/`.  The spec gives the horizontal formula
`(addr & 0x03FF) | ((addr & 0x0800) >> 1)` and the vertical formula
`addr & 0x07FF`, and says the return value is then reduced by `0x2000` by the
caller to index the internal VRAM buffer, so the function itself returns a
`0x2000`-based address. -/
def NametableMirror.mirrored_addr (m : NametableMirror) (addr : Nat) : Nat :=
  match m with
  | NametableMirror.horizontal => 0x2000 + ((addr &&& 0x03FF) ||| ((addr &&& 0x0800) >>> 1))
  | NametableMirror.vertical => 0x2000 + (addr &&& 0x07FF)

/-- The NROM mapper state (`struct Nrom`).  The byte arrays (`Mem`) are
embedded as total maps. -/
structure Nrom where
  rom_size : RomSize
  prg_ram : Option (Nat → Nat)
  prg_rom : Nat → Nat
  chr_rom : Nat → Nat
  internal_vram : Nat → Nat
  nametable_mirror : NametableMirror

/-- `Nrom::new`.  Panics are embedded as `none`: `unimplemented!` on a
trainer, `panic!` on an unsupported PRG-ROM count, and the slice-bounds
panics of `&rom_sections[0..0x4000]` / `..[0x4000..0x4000+0x2000*chr]`
(resp. the 0x8000-based slices) when `rom_sections` is shorter than the
sliced ranges.  Within those checked bounds the slices are embedded as
offset lookups into the list. -/
def Nrom.new (header : List Nat) (rom_sections : List Nat) : Option Nrom :=
  let prg_rom_size := header.getD 4 0
  let chr_rom_size := header.getD 5 0
  let prg_ram : Option (Nat → Nat) :=
    if (header.getD 6 0) &&& 0x04 = 1 then some (fun _ => 0) else none
  let nametable_mirror :=
    if (header.getD 6 0) &&& 0x01 = 1 then NametableMirror.vertical
    else NametableMirror.horizontal
  if (header.getD 6 0) &&& 0x08 ≠ 0 then none
  else
    match prg_rom_size with
    | 1 =>
        if 0x4000 + 0x2000 * chr_rom_size ≤ rom_sections.length then
          some
            { rom_size := RomSize.sixteen
              prg_ram := prg_ram
              prg_rom := fun i => rom_sections.getD i 0
              chr_rom := fun i => rom_sections.getD (0x4000 + i) 0
              internal_vram := fun _ => 0
              nametable_mirror := nametable_mirror }
        else none
    | 2 =>
        if 0x8000 + 0x2000 * chr_rom_size ≤ rom_sections.length then
          some
            { rom_size := RomSize.thirtyTwo
              prg_ram := prg_ram
              prg_rom := fun i => rom_sections.getD i 0
              chr_rom := fun i => rom_sections.getD (0x8000 + i) 0
              internal_vram := fun _ => 0
              nametable_mirror := nametable_mirror }
        else none
    | _ => none

/-- `Nrom::mirrored_addr`: delegate to the nametable mirror and rebase to the
internal VRAM buffer. -/
def Nrom.mirrored_addr (n : Nrom) (addr : Nat) : Nat :=
  n.nametable_mirror.mirrored_addr addr - 0x2000

/-- `Nrom::get_cpu_space`.  The two panicking arms and a read of absent
PRG-RAM (`expect`) are embedded as `none`. -/
def Nrom.get_cpu_space (n : Nrom) (addr : Nat) : Option Nat :=
  if addr ≤ 0x401F then none
  else if addr ≤ 0x5FFF then none
  else if addr ≤ 0x7FFF then n.prg_ram.map fun ram => ram (addr - 0x6000)
  else if addr ≤ 0xBFFF then some (n.prg_rom (addr - 0x8000))
  else
    match n.rom_size with
    | RomSize.sixteen => some (n.prg_rom (addr - 0xC000))
    | RomSize.thirtyTwo => some (n.prg_rom (addr - 0x8000))

/-- `Nrom::set_cpu_space`.  Writes outside PRG-RAM, or with PRG-RAM absent,
panic in the source and are embedded as `none`. -/
def Nrom.set_cpu_space (n : Nrom) (addr v : Nat) : Option Nrom :=
  if 0x6000 ≤ addr ∧ addr ≤ 0x7FFF then
    n.prg_ram.map fun ram => { n with prg_ram := some (updateFn ram (addr - 0x6000) v) }
  else none

/-- `Nrom::get_ppu_space`.  The `unimplemented!` arm is embedded as `none`. -/
def Nrom.get_ppu_space (n : Nrom) (addr : Nat) : Option Nat :=
  if addr ≤ 0x1FFF then some (n.chr_rom addr)
  else if addr ≤ 0x2FFF then some (n.internal_vram (n.mirrored_addr addr))
  else if addr ≤ 0x3EFF then some (n.internal_vram (addr - 0x3000))
  else none

/-- `Nrom::set_ppu_space`.  The `unimplemented!` arm is embedded as `none`. -/
def Nrom.set_ppu_space (n : Nrom) (addr v : Nat) : Option Nrom :=
  if addr ≤ 0x1FFF then some { n with chr_rom := updateFn n.chr_rom addr v }
  else if addr ≤ 0x2FFF then
    some { n with internal_vram := updateFn n.internal_vram (n.mirrored_addr addr) v }
  else if addr ≤ 0x3EFF then
    some { n with internal_vram := updateFn n.internal_vram (addr - 0x3000) v }
  else none

/-- Mapper state witnessing that the 0x3000 shadow bypasses nametable
mirroring: VRAM holds 1 at index 0x400 and 0 elsewhere, horizontal mirror. -/
def nrom_c5 : Nrom :=
  { rom_size := RomSize.sixteen
    prg_ram := none
    prg_rom := fun _ => 0
    chr_rom := fun _ => 0
    internal_vram := fun i => if i = 0x400 then 1 else 0
    nametable_mirror := NametableMirror.horizontal }

/-- A cartridge header whose flags byte 6 has bit 2 (PRG-RAM present) set. -/
def header_c2 : List Nat := [0x4E, 0x45, 0x53, 0x1A, 1, 1, 0x04, 0, 0, 0, 0, 0, 0, 0, 0, 0]

/-- ROM sections sized for header_c2 (one 16 KiB PRG bank plus one 8 KiB
CHR bank, 0x6000 bytes), so Nrom::new's slices are in bounds. -/
def rom_c2 : List Nat := List.replicate 0x6000 0

/-- A 32 KiB NROM mapper with recognizable PRG-ROM contents. -/
def nrom_c6a : Nrom :=
  { rom_size := RomSize.thirtyTwo
    prg_ram := none
    prg_rom := fun i => i % 256
    chr_rom := fun _ => 0
    internal_vram := fun _ => 0
    nametable_mirror := NametableMirror.horizontal }

/-- A 16 KiB NROM mapper with recognizable PRG-ROM contents. -/
def nrom_c6b : Nrom :=
  { rom_size := RomSize.sixteen
    prg_ram := none
    prg_rom := fun i => (i + 3) % 256
    chr_rom := fun _ => 0
    internal_vram := fun _ => 0
    nametable_mirror := NametableMirror.vertical }

/-! ## APU (src/apu/mod.rs)

Audio sample values (f32 in the source) are embedded as rationals; the
claims about them concern only exact zero contributions, which f32
represents exactly. -/

/-- Modelled from the spec: src/apu/components.rs is not under src/.  A
length counter is a per-channel countdown that silences the channel when it
reaches zero; its tick counts down. -/
structure LengthCounter where
  length : Nat

/-- Modelled from the spec: the length counter counts down (and stays at
zero). -/
def LengthCounter.tick (c : LengthCounter) : LengthCounter :=
  { length := c.length - 1 }

/-- Modelled from the spec: src/apu/components.rs is not under src/.  An
envelope generator decays a channel's amplitude over time. -/
structure Envelope where
  level : Nat

/-- Modelled from the spec: a quarter-frame tick advances (decays) the
envelope. -/
def Envelope.tick (e : Envelope) : Envelope :=
  { level := e.level - 1 }

/-- Modelled from the spec: src/apu/pulse.rs is not under src/.  A pulse
channel has an envelope, a length counter, and duty-cycle/timer state; its
current audible volume is kept as a rational. -/
structure Pulse where
  length_counter : LengthCounter
  envelope : Envelope
  timer : Nat
  duty : Nat
  volume : ℚ

/-- Modelled from the spec: on even cycles the APU clocks each pulse
channel's timer once. -/
def Pulse.tick (p : Pulse) : Pulse :=
  { p with timer := p.timer - 1 }

/-- Modelled from the spec: a channel's sample() returns an optional volume,
None if silent / length-counter zero. -/
def Pulse.sample (p : Pulse) : Option ℚ :=
  if p.length_counter.length = 0 then none else some p.volume

/-- Modelled from the spec: registers 0x4000-0x4003 (resp. 0x4004-0x4007)
configure duty/envelope, sweep, timer and length-load of a pulse channel. -/
def Pulse.set_register (p : Pulse) (addr value : Nat) : Pulse :=
  match addr % 4 with
  | 0 => { p with duty := value >>> 6, volume := ((value &&& 0x0F : Nat) : ℚ) }
  | 1 => p
  | 2 => { p with timer := value }
  | _ => { p with length_counter := { length := value >>> 3 } }

/-- Modelled from the spec: common.rs is not under src/; the spec fixes
CLOCKS_PER_FRAME = 29781 and SAMPLES_PER_FRAME = 735, and the source
computes SAMPLE_RATE as (CLOCKS_PER_FRAME / SAMPLES_PER_FRAME / 2.0) - 1. -/
def SAMPLE_RATE : ℚ := 29781 / 735 / 2 - 1

/-- The APU state (struct Apu).  The enabled-channels and frame-counter
bitflags are embedded as the Nat values of their u8 bit sets. -/
structure Apu where
  cycle : Nat
  sample_step : ℚ
  samples : List ℚ
  pulse1 : Pulse
  pulse2 : Pulse
  enabled : Nat
  frame_counter : Nat

/-- Apu::set_enabled_flags: truncate the written byte to the five defined
channel bits and force the length counter of each disabled pulse channel to
zero. -/
def Apu.set_enabled_flags (a : Apu) (value : Nat) : Apu :=
  let a1 := { a with enabled := value &&& 0x1F }
  let a2 :=
    if a1.enabled &&& 0x01 = 0x01 then a1
    else { a1 with pulse1 := { a1.pulse1 with length_counter := { length := 0 } } }
  if a2.enabled &&& 0x02 = 0x02 then a2
  else { a2 with pulse2 := { a2.pulse2 with length_counter := { length := 0 } } }

/-- Apu::set_register: dispatch on the register address (unknown addresses
only log a warning). -/
def Apu.set_register (a : Apu) (addr value : Nat) : Apu :=
  if 0x4000 ≤ addr ∧ addr ≤ 0x4003 then { a with pulse1 := a.pulse1.set_register addr value }
  else if 0x4004 ≤ addr ∧ addr ≤ 0x4007 then { a with pulse2 := a.pulse2.set_register addr value }
  else if addr = 0x4015 then a.set_enabled_flags value
  else if addr = 0x4017 then { a with frame_counter := value &&& 0xC0 }
  else a

/-- The pulse-1 term entering the mixer sum in Apu::sample: the channel's
sample if the channel is enabled, with None (silent) read as 0. -/
def Apu.pulse1Val (a : Apu) : ℚ :=
  if a.enabled &&& 0x01 = 0x01 then (a.pulse1.sample).getD 0 else 0

/-- The pulse-2 term entering the mixer sum in Apu::sample. -/
def Apu.pulse2Val (a : Apu) : ℚ :=
  if a.enabled &&& 0x02 = 0x02 then (a.pulse2.sample).getD 0 else 0

/-- The mixed value pushed by Apu::sample; triangle, noise and DMC are
unimplemented and contribute the literal 0. -/
def Apu.mixedSample (a : Apu) : ℚ :=
  0.00752 * (a.pulse1Val + a.pulse2Val) + (0.00851 * 0 + 0.00494 * 0 + 0.00335 * 0)

/-- Apu::sample: push one mixed sample. -/
def Apu.pushSample (a : Apu) : Apu :=
  { a with samples := a.samples ++ [a.mixedSample] }

/-- Apu::clock_channels: half-frame ticks advance the length counters; all
ticks advance the envelopes. -/
def Apu.clock_channels (a : Apu) (half_frame : Bool) : Apu :=
  let a1 :=
    if half_frame then
      { a with
        pulse1 := { a.pulse1 with length_counter := a.pulse1.length_counter.tick }
        pulse2 := { a.pulse2 with length_counter := a.pulse2.length_counter.tick } }
    else a
  { a1 with
    pulse1 := { a1.pulse1 with envelope := a1.pulse1.envelope.tick }
    pulse2 := { a1.pulse2 with envelope := a1.pulse2.envelope.tick } }

/-- The frame-sequencer dispatch of Apu::tick (the match on self.cycle).
The step at 29828 is the frame-IRQ placeholder and changes nothing. -/
def Apu.frameStep (a : Apu) : Apu :=
  if a.cycle = 7457 then a.clock_channels false
  else if a.cycle = 14913 then a.clock_channels true
  else if a.cycle = 22371 then a.clock_channels false
  else if a.cycle = 29828 then a
  else if a.cycle = 29829 then
    (if a.frame_counter &&& 0x80 = 0x80 then a
     else { a.clock_channels true with cycle := 0 })
  else if a.cycle = 37281 then
    (if a.frame_counter &&& 0x80 = 0x80 then { a.clock_channels true with cycle := 0 }
     else a)
  else a

/-- The first block of Apu::tick: on even cycles, clock the pulse timers. -/
def Apu.pulseTickStep (a : Apu) : Apu :=
  if a.cycle % 2 = 0 then { a with pulse1 := a.pulse1.tick, pulse2 := a.pulse2.tick }
  else a

/-- The sample-emission block of Apu::tick (its parity test reads the cycle
counter after the frame dispatch possibly reset it, as the source does). -/
def Apu.sampleStep (a : Apu) : Apu :=
  if a.cycle % 2 = 0 then
    (if a.sample_step ≤ 0 then { a.pushSample with sample_step := a.sample_step + SAMPLE_RATE }
     else { a with sample_step := a.sample_step - 1 })
  else a

/-- Apu::tick: pulse timers, frame sequencer, sample emission, then
increment the (u16) cycle counter. -/
def Apu.tick (a : Apu) : Apu :=
  let a3 := ((a.pulseTickStep).frameStep).sampleStep
  { a3 with cycle := (a3.cycle + 1) % 65536 }

/-- Iterated Apu::tick. -/
def Apu.tickN (a : Apu) : Nat → Apu
  | 0 => a
  | m + 1 => (a.tickN m).tick

/-- An APU state with both pulse channels enabled, audible and mid-count. -/
def apu_c7 : Apu :=
  { cycle := 0
    sample_step := 0
    samples := []
    pulse1 := { length_counter := { length := 5 }, envelope := { level := 2 },
                timer := 7, duty := 1, volume := 3 }
    pulse2 := { length_counter := { length := 6 }, envelope := { level := 2 },
                timer := 9, duty := 2, volume := 4 }
    enabled := 0x1F
    frame_counter := 0 }

/-! ## CPU (src/cpu.rs) -/

/-- The 6502 operations, official and unofficial (enum Operation). -/
inductive Operation
| ADC | AND | ASL | BCC | BCS | BEQ | BIT | BMI
| BNE | BPL | BRK | BVC | BVS | CLC | CLD | CLI
| CLV | CMP | CPX | CPY | DEC | DEX | DEY | EOR
| INC | INX | INY | JMP | JSR | LDA | LDX | LDY
| LSR | NOP | ORA | PHA | PHP | PLA | PLP | ROL
| ROR | RTI | RTS | SBC | SEC | SED | SEI | STA
| STX | STY | TAX | TAY | TSX | TXA | TXS | TYA
| KIL | ISC | DCP | AXS | LAS | LAX | AHX | SAX
| XAA | SHX | RRA | TAS | SHY | ARR | SRE | ALR
| RLA | ANC | SLO
deriving DecidableEq

/-- The thirteen addressing modes (enum AddressMode). -/
inductive AddressMode
| Implicit
| Accumulator
| Immediate
| ZeroPage
| ZeroPageX
| ZeroPageY
| Relative
| Absolute
| AbsoluteX
| AbsoluteY
| Indirect
| IndirectX
| IndirectY
deriving DecidableEq

/-- AddressMode::byte_count. -/
def AddressMode.byte_count : AddressMode → Nat
  | .Accumulator | .Implicit => 1
  | .ZeroPage | .ZeroPageX | .ZeroPageY | .Relative => 2
  | .Immediate | .Indirect | .IndirectX | .IndirectY => 2
  | .Absolute | .AbsoluteX | .AbsoluteY => 3

/-- An opcode-table entry: (Operation, AddressMode, Cycles,
AddIfPageBoundaryCrossed). -/
structure Opcode where
  op : Operation
  mode : AddressMode
  cycles : Nat
  addOnCross : Bool

open Operation AddressMode

/-- Opcode-table row 0x0_. -/
def TABLE_ROW_0 : List Opcode := [
  ⟨BRK, Implicit, 7, false⟩,
  ⟨ORA, IndirectX, 6, false⟩,
  ⟨KIL, Implicit, 0, false⟩,
  ⟨SLO, IndirectX, 8, false⟩,
  ⟨NOP, ZeroPage, 3, false⟩,
  ⟨ORA, ZeroPage, 3, false⟩,
  ⟨ASL, ZeroPage, 5, false⟩,
  ⟨SLO, ZeroPage, 5, false⟩,
  ⟨PHP, Implicit, 3, false⟩,
  ⟨ORA, Immediate, 2, false⟩,
  ⟨ASL, Accumulator, 2, false⟩,
  ⟨ANC, Immediate, 2, false⟩,
  ⟨NOP, Absolute, 4, false⟩,
  ⟨ORA, Absolute, 4, false⟩,
  ⟨ASL, Absolute, 6, false⟩,
  ⟨SLO, Absolute, 6, false⟩]

/-- Opcode-table row 0x1_. -/
def TABLE_ROW_1 : List Opcode := [
  ⟨BPL, Relative, 2, true⟩,
  ⟨ORA, IndirectY, 5, true⟩,
  ⟨KIL, Implicit, 0, false⟩,
  ⟨SLO, IndirectY, 8, false⟩,
  ⟨NOP, ZeroPageX, 4, false⟩,
  ⟨ORA, ZeroPageX, 4, false⟩,
  ⟨ASL, ZeroPageX, 6, false⟩,
  ⟨SLO, ZeroPageX, 6, false⟩,
  ⟨CLC, Implicit, 2, false⟩,
  ⟨ORA, AbsoluteY, 4, true⟩,
  ⟨NOP, Implicit, 2, false⟩,
  ⟨SLO, AbsoluteY, 7, false⟩,
  ⟨NOP, AbsoluteX, 4, true⟩,
  ⟨ORA, AbsoluteX, 4, true⟩,
  ⟨ASL, AbsoluteX, 7, false⟩,
  ⟨SLO, AbsoluteX, 7, false⟩]

/-- Opcode-table row 0x2_. -/
def TABLE_ROW_2 : List Opcode := [
  ⟨JSR, Absolute, 6, false⟩,
  ⟨AND, IndirectX, 6, false⟩,
  ⟨KIL, Implicit, 0, false⟩,
  ⟨RLA, IndirectX, 8, false⟩,
  ⟨BIT, ZeroPage, 3, false⟩,
  ⟨AND, ZeroPage, 3, false⟩,
  ⟨ROL, ZeroPage, 5, false⟩,
  ⟨RLA, ZeroPage, 5, false⟩,
  ⟨PLP, Implicit, 4, false⟩,
  ⟨AND, Immediate, 2, false⟩,
  ⟨ROL, Accumulator, 2, false⟩,
  ⟨ANC, Immediate, 2, false⟩,
  ⟨BIT, Absolute, 4, false⟩,
  ⟨AND, Absolute, 4, false⟩,
  ⟨ROL, Absolute, 6, false⟩,
  ⟨RLA, Absolute, 6, false⟩]

/-- Opcode-table row 0x3_. -/
def TABLE_ROW_3 : List Opcode := [
  ⟨BMI, Relative, 2, true⟩,
  ⟨AND, IndirectY, 5, true⟩,
  ⟨KIL, Implicit, 0, false⟩,
  ⟨RLA, IndirectY, 8, false⟩,
  ⟨NOP, ZeroPageX, 4, false⟩,
  ⟨AND, ZeroPageX, 4, false⟩,
  ⟨ROL, ZeroPageX, 6, false⟩,
  ⟨RLA, ZeroPageX, 6, false⟩,
  ⟨SEC, Implicit, 2, false⟩,
  ⟨AND, AbsoluteY, 4, true⟩,
  ⟨NOP, Implicit, 2, false⟩,
  ⟨RLA, AbsoluteY, 7, false⟩,
  ⟨NOP, AbsoluteX, 4, true⟩,
  ⟨AND, AbsoluteX, 4, true⟩,
  ⟨ROL, AbsoluteX, 7, false⟩,
  ⟨RLA, AbsoluteX, 7, false⟩]

/-- Opcode-table row 0x4_. -/
def TABLE_ROW_4 : List Opcode := [
  ⟨RTI, Implicit, 6, false⟩,
  ⟨EOR, IndirectX, 6, false⟩,
  ⟨KIL, Implicit, 0, false⟩,
  ⟨SRE, IndirectX, 8, false⟩,
  ⟨NOP, ZeroPage, 3, false⟩,
  ⟨EOR, ZeroPage, 3, false⟩,
  ⟨LSR, ZeroPage, 5, false⟩,
  ⟨SRE, ZeroPage, 5, false⟩,
  ⟨PHA, Implicit, 3, false⟩,
  ⟨EOR, Immediate, 2, false⟩,
  ⟨LSR, Accumulator, 2, false⟩,
  ⟨ALR, Immediate, 2, false⟩,
  ⟨JMP, Absolute, 3, false⟩,
  ⟨EOR, Absolute, 4, false⟩,
  ⟨LSR, Absolute, 6, false⟩,
  ⟨SRE, Absolute, 6, false⟩]

/-- Opcode-table row 0x5_. -/
def TABLE_ROW_5 : List Opcode := [
  ⟨BVC, Relative, 2, true⟩,
  ⟨EOR, IndirectY, 5, true⟩,
  ⟨KIL, Implicit, 0, false⟩,
  ⟨SRE, IndirectY, 8, false⟩,
  ⟨NOP, ZeroPageX, 4, false⟩,
  ⟨EOR, ZeroPageX, 4, false⟩,
  ⟨LSR, ZeroPageX, 6, false⟩,
  ⟨SRE, ZeroPageX, 6, false⟩,
  ⟨CLI, Implicit, 2, false⟩,
  ⟨EOR, AbsoluteY, 4, true⟩,
  ⟨NOP, Implicit, 2, false⟩,
  ⟨SRE, AbsoluteY, 7, false⟩,
  ⟨NOP, AbsoluteX, 4, true⟩,
  ⟨EOR, AbsoluteX, 4, true⟩,
  ⟨LSR, AbsoluteX, 7, false⟩,
  ⟨SRE, AbsoluteX, 7, false⟩]

/-- Opcode-table row 0x6_. -/
def TABLE_ROW_6 : List Opcode := [
  ⟨RTS, Implicit, 6, false⟩,
  ⟨ADC, IndirectX, 6, false⟩,
  ⟨KIL, Implicit, 0, false⟩,
  ⟨RRA, IndirectX, 8, false⟩,
  ⟨NOP, ZeroPage, 3, false⟩,
  ⟨ADC, ZeroPage, 3, false⟩,
  ⟨ROR, ZeroPage, 5, false⟩,
  ⟨RRA, ZeroPage, 5, false⟩,
  ⟨PLA, Implicit, 4, false⟩,
  ⟨ADC, Immediate, 2, false⟩,
  ⟨ROR, Accumulator, 2, false⟩,
  ⟨ARR, Immediate, 2, false⟩,
  ⟨JMP, Indirect, 5, false⟩,
  ⟨ADC, Absolute, 4, false⟩,
  ⟨ROR, Absolute, 6, false⟩,
  ⟨RRA, Absolute, 6, false⟩]

/-- Opcode-table row 0x7_. -/
def TABLE_ROW_7 : List Opcode := [
  ⟨BVS, Relative, 2, true⟩,
  ⟨ADC, IndirectY, 5, true⟩,
  ⟨KIL, Implicit, 0, false⟩,
  ⟨RRA, IndirectY, 8, false⟩,
  ⟨NOP, ZeroPageX, 4, false⟩,
  ⟨ADC, ZeroPageX, 4, false⟩,
  ⟨ROR, ZeroPageX, 6, false⟩,
  ⟨RRA, ZeroPageX, 6, false⟩,
  ⟨SEI, Implicit, 2, false⟩,
  ⟨ADC, AbsoluteY, 4, true⟩,
  ⟨NOP, Implicit, 2, false⟩,
  ⟨RRA, AbsoluteY, 7, false⟩,
  ⟨NOP, AbsoluteX, 4, true⟩,
  ⟨ADC, AbsoluteX, 4, true⟩,
  ⟨ROR, AbsoluteX, 7, false⟩,
  ⟨RRA, AbsoluteX, 7, false⟩]

/-- Opcode-table row 0x8_. -/
def TABLE_ROW_8 : List Opcode := [
  ⟨NOP, Immediate, 2, false⟩,
  ⟨STA, IndirectX, 6, false⟩,
  ⟨NOP, Immediate, 2, false⟩,
  ⟨SAX, IndirectX, 6, false⟩,
  ⟨STY, ZeroPage, 3, false⟩,
  ⟨STA, ZeroPage, 3, false⟩,
  ⟨STX, ZeroPage, 3, false⟩,
  ⟨SAX, ZeroPage, 3, false⟩,
  ⟨DEY, Implicit, 2, false⟩,
  ⟨NOP, Immediate, 2, false⟩,
  ⟨TXA, Implicit, 2, false⟩,
  ⟨XAA, Immediate, 2, false⟩,
  ⟨STY, Absolute, 4, false⟩,
  ⟨STA, Absolute, 4, false⟩,
  ⟨STX, Absolute, 4, false⟩,
  ⟨SAX, Absolute, 4, false⟩]

/-- Opcode-table row 0x9_. -/
def TABLE_ROW_9 : List Opcode := [
  ⟨BCC, Relative, 2, true⟩,
  ⟨STA, IndirectY, 6, false⟩,
  ⟨KIL, Implicit, 0, false⟩,
  ⟨AHX, IndirectY, 6, false⟩,
  ⟨STY, ZeroPageX, 4, false⟩,
  ⟨STA, ZeroPageX, 4, false⟩,
  ⟨STX, ZeroPageY, 4, false⟩,
  ⟨SAX, ZeroPageY, 4, false⟩,
  ⟨TYA, Implicit, 2, false⟩,
  ⟨STA, AbsoluteY, 5, false⟩,
  ⟨TXS, Implicit, 2, false⟩,
  ⟨TAS, AbsoluteY, 5, false⟩,
  ⟨SHY, AbsoluteX, 5, false⟩,
  ⟨STA, AbsoluteX, 5, false⟩,
  ⟨SHX, AbsoluteY, 5, false⟩,
  ⟨AHX, AbsoluteY, 5, false⟩]

/-- Opcode-table row 0xA_. -/
def TABLE_ROW_A : List Opcode := [
  ⟨LDY, Immediate, 2, false⟩,
  ⟨LDA, IndirectX, 6, false⟩,
  ⟨LDX, Immediate, 2, false⟩,
  ⟨LAX, IndirectX, 6, false⟩,
  ⟨LDY, ZeroPage, 3, false⟩,
  ⟨LDA, ZeroPage, 3, false⟩,
  ⟨LDX, ZeroPage, 3, false⟩,
  ⟨LAX, ZeroPage, 3, false⟩,
  ⟨TAY, Implicit, 2, false⟩,
  ⟨LDA, Immediate, 2, false⟩,
  ⟨TAX, Implicit, 2, false⟩,
  ⟨LAX, Immediate, 2, false⟩,
  ⟨LDY, Absolute, 4, false⟩,
  ⟨LDA, Absolute, 4, false⟩,
  ⟨LDX, Absolute, 4, false⟩,
  ⟨LAX, Absolute, 4, false⟩]

/-- Opcode-table row 0xB_. -/
def TABLE_ROW_B : List Opcode := [
  ⟨BCS, Relative, 2, true⟩,
  ⟨LDA, IndirectY, 5, true⟩,
  ⟨KIL, Implicit, 0, false⟩,
  ⟨LAX, IndirectY, 5, true⟩,
  ⟨LDY, ZeroPageX, 4, false⟩,
  ⟨LDA, ZeroPageX, 4, false⟩,
  ⟨LDX, ZeroPageY, 4, false⟩,
  ⟨LAX, ZeroPageY, 4, false⟩,
  ⟨CLV, Implicit, 2, false⟩,
  ⟨LDA, AbsoluteY, 4, true⟩,
  ⟨TSX, Implicit, 2, false⟩,
  ⟨LAS, AbsoluteY, 4, true⟩,
  ⟨LDY, AbsoluteX, 4, true⟩,
  ⟨LDA, AbsoluteX, 4, true⟩,
  ⟨LDX, AbsoluteY, 4, true⟩,
  ⟨LAX, AbsoluteY, 4, true⟩]

/-- Opcode-table row 0xC_. -/
def TABLE_ROW_C : List Opcode := [
  ⟨CPY, Immediate, 2, false⟩,
  ⟨CMP, IndirectX, 6, false⟩,
  ⟨NOP, Immediate, 2, false⟩,
  ⟨DCP, IndirectX, 8, false⟩,
  ⟨CPY, ZeroPage, 3, false⟩,
  ⟨CMP, ZeroPage, 3, false⟩,
  ⟨DEC, ZeroPage, 5, false⟩,
  ⟨DCP, ZeroPage, 5, false⟩,
  ⟨INY, Implicit, 2, false⟩,
  ⟨CMP, Immediate, 2, false⟩,
  ⟨DEX, Implicit, 2, false⟩,
  ⟨AXS, Immediate, 2, false⟩,
  ⟨CPY, Absolute, 4, false⟩,
  ⟨CMP, Absolute, 4, false⟩,
  ⟨DEC, Absolute, 6, false⟩,
  ⟨DCP, Absolute, 6, false⟩]

/-- Opcode-table row 0xD_. -/
def TABLE_ROW_D : List Opcode := [
  ⟨BNE, Relative, 2, true⟩,
  ⟨CMP, IndirectY, 5, true⟩,
  ⟨KIL, Implicit, 0, false⟩,
  ⟨DCP, IndirectY, 8, false⟩,
  ⟨NOP, ZeroPageX, 4, false⟩,
  ⟨CMP, ZeroPageX, 4, false⟩,
  ⟨DEC, ZeroPageX, 6, false⟩,
  ⟨DCP, ZeroPageX, 6, false⟩,
  ⟨CLD, Implicit, 2, false⟩,
  ⟨CMP, AbsoluteY, 4, true⟩,
  ⟨NOP, Implicit, 2, false⟩,
  ⟨DCP, AbsoluteY, 7, false⟩,
  ⟨NOP, AbsoluteX, 4, true⟩,
  ⟨CMP, AbsoluteX, 4, true⟩,
  ⟨DEC, AbsoluteX, 7, false⟩,
  ⟨DCP, AbsoluteX, 7, false⟩]

/-- Opcode-table row 0xE_. -/
def TABLE_ROW_E : List Opcode := [
  ⟨CPX, Immediate, 2, false⟩,
  ⟨SBC, IndirectX, 6, false⟩,
  ⟨NOP, Immediate, 2, false⟩,
  ⟨ISC, IndirectX, 8, false⟩,
  ⟨CPX, ZeroPage, 3, false⟩,
  ⟨SBC, ZeroPage, 3, false⟩,
  ⟨INC, ZeroPage, 5, false⟩,
  ⟨ISC, ZeroPage, 5, false⟩,
  ⟨INX, Implicit, 2, false⟩,
  ⟨SBC, Immediate, 2, false⟩,
  ⟨NOP, Implicit, 2, false⟩,
  ⟨SBC, Immediate, 2, false⟩,
  ⟨CPX, Absolute, 4, false⟩,
  ⟨SBC, Absolute, 4, false⟩,
  ⟨INC, Absolute, 6, false⟩,
  ⟨ISC, Absolute, 6, false⟩]

/-- Opcode-table row 0xF_. -/
def TABLE_ROW_F : List Opcode := [
  ⟨BEQ, Relative, 2, true⟩,
  ⟨SBC, IndirectY, 5, true⟩,
  ⟨KIL, Implicit, 0, false⟩,
  ⟨ISC, IndirectY, 8, false⟩,
  ⟨NOP, ZeroPageX, 4, false⟩,
  ⟨SBC, ZeroPageX, 4, false⟩,
  ⟨INC, ZeroPageX, 6, false⟩,
  ⟨ISC, ZeroPageX, 6, false⟩,
  ⟨SED, Implicit, 2, false⟩,
  ⟨SBC, AbsoluteY, 4, true⟩,
  ⟨NOP, Implicit, 2, false⟩,
  ⟨ISC, AbsoluteY, 7, false⟩,
  ⟨NOP, AbsoluteX, 4, true⟩,
  ⟨SBC, AbsoluteX, 4, true⟩,
  ⟨INC, AbsoluteX, 7, false⟩,
  ⟨ISC, AbsoluteX, 7, false⟩]

/-- The 256-entry opcode table (const TABLE), transcribed row by row. -/
def TABLE : List Opcode :=
  TABLE_ROW_0 ++ TABLE_ROW_1 ++ TABLE_ROW_2 ++ TABLE_ROW_3 ++
  TABLE_ROW_4 ++ TABLE_ROW_5 ++ TABLE_ROW_6 ++ TABLE_ROW_7 ++
  TABLE_ROW_8 ++ TABLE_ROW_9 ++ TABLE_ROW_A ++ TABLE_ROW_B ++
  TABLE_ROW_C ++ TABLE_ROW_D ++ TABLE_ROW_E ++ TABLE_ROW_F

/-- opcodes::resolve: index the table by the opcode byte.  The byte always
satisfies code < 256 = TABLE.length, so the default entry is unreachable. -/
def resolve (code : Nat) : Opcode :=
  TABLE.getD code ⟨Operation.NOP, AddressMode.Implicit, 0, false⟩

/-- Modelled from the spec: memory.rs (CpuMem, the CPU memory bus) is not
under src/.  The spec describes a byte-granular bus with get, set and
get_page, plus the OAM-DMA register reached through it; the demultiplexed
byte store is embedded as one total map over the 16-bit address space and
the OAM buffer written by set_oamdma as a list. -/
structure CpuMem where
  data : Nat → Nat
  oamdma : List Nat

/-- Bus read: a byte at a 16-bit address. -/
def CpuMem.get (m : CpuMem) (addr : Nat) : Nat := m.data (addr % 65536) % 256

/-- Bus write: a byte at a 16-bit address. -/
def CpuMem.set (m : CpuMem) (addr v : Nat) : CpuMem :=
  { m with data := updateFn m.data (addr % 65536) (v % 256) }

/-- Bus page read: the 256 bytes starting at the given page base address. -/
def CpuMem.get_page (m : CpuMem) (addr : Nat) : List Nat :=
  (List.range 256).map fun i => m.get (addr + i)

/-- Bus OAM-DMA: hand a copied page to the PPU's OAM buffer. -/
def CpuMem.set_oamdma (m : CpuMem) (page : List Nat) : CpuMem :=
  { m with oamdma := page }

/-- Status flag bits (bitflags Status).  Note there is no flag at bit 4;
BREAK is 0x20. -/
def Status.CARRY : Nat := 0x01

def Status.ZERO : Nat := 0x02

def Status.INTERRUPT_DISABLE : Nat := 0x04

def Status.DECIMAL : Nat := 0x08

def Status.BREAK : Nat := 0x20

def Status.OVERFLOW : Nat := 0x40

def Status.NEGATIVE : Nat := 0x80

/-- The union of all defined Status bits (bitflags all()): 0xEF, bit 4
missing. -/
def Status.ALL : Nat := 0xEF

/-- bitflags from_bits_truncate: keep only defined flag bits. -/
def Status.from_bits_truncate (v : Nat) : Nat := v &&& Status.ALL

/-- bitflags set: insert the mask bits or remove them (via the u8
complement of the mask). -/
def Status.set (p mask : Nat) (b : Bool) : Nat :=
  if b then p ||| mask else p &&& (0xFF ^^^ mask)

def SIGN_BIT : Nat := 0x80

def NMI_VECTOR : Nat := 0xFFFA

def RESET_VECTOR : Nat := 0xFFFC

def IRQ_VECTOR : Nat := 0xFFFE

/-- The mask of bits that get turned on when the P register is represented
on the stack (PHP_MASK). -/
def PHP_MASK : Nat := 0x30

/-- The CPU state (struct Cpu). -/
structure Cpu where
  mem : CpuMem
  a : Nat
  x : Nat
  y : Nat
  pc : Nat
  s : Nat
  p : Nat
  nmi : Bool
  irq : Bool
  reset : Bool
  remaining_pause : Nat
  instruction_counter : Nat

/-- Cpu::new: power-up state; outside test mode the PC is loaded from the
RESET vector. -/
def Cpu.new (mem : CpuMem) (test_mode : Bool) : Cpu :=
  let out : Cpu :=
    { mem := mem
      a := 0
      x := 0
      y := 0
      pc := 0x8000
      s := 0xFD
      p := Status.BREAK ||| Status.INTERRUPT_DISABLE
      nmi := false
      irq := false
      reset := false
      remaining_pause := 0
      instruction_counter := 0 }
  if test_mode then out
  else { out with pc := join_bytes (out.mem.get (RESET_VECTOR + 1)) (out.mem.get RESET_VECTOR) }

/-- Cpu::next_byte. -/
def Cpu.next_byte (st : Cpu) : Nat := st.mem.get (st.pc + 1)

/-- Cpu::_different_pages: whether two addresses lie on different 256-byte
pages. -/
def Cpu.different_pages (addr1 addr2 : Nat) : Bool :=
  decide (addr1 &&& 0xFF00 ≠ addr2 &&& 0xFF00)

/-- Cpu::absolute_lookup. -/
def Cpu.absolute_lookup (st : Cpu) (jump : Option Nat) : Nat × Bool :=
  let origin := join_bytes (st.mem.get (st.pc + 2)) (st.mem.get (st.pc + 1))
  match jump with
  | some value =>
      let dest := (origin + value) % 65536
      (dest, Cpu.different_pages origin dest)
  | none => (origin, false)

/-- The u16 read of an i8 cast of a byte: sign extension. -/
def i8_as_u16 (b : Nat) : Nat := if b < 128 then b else 0xFF00 + b

/-- The signed (i8) reading of a byte, as an integer. -/
def i8 (b : Nat) : Int := if b < 128 then (b : Int) else (b : Int) - 256

/-- Cpu::resolve_addr: effective address of the operand plus the
page-crossed bool. -/
def Cpu.resolve_addr (st : Cpu) (op : Opcode) : Nat × Bool :=
  match op.mode with
  | .Accumulator => (0, false)
  | .Implicit => (0, false)
  | .Immediate => ((st.pc + 1) % 65536, false)
  | .Absolute => st.absolute_lookup none
  | .AbsoluteX => st.absolute_lookup (some st.x)
  | .AbsoluteY => st.absolute_lookup (some st.y)
  | .ZeroPage => (join_bytes 0 st.next_byte, false)
  | .ZeroPageX => (join_bytes 0 ((st.next_byte + st.x) % 256), false)
  | .ZeroPageY => (join_bytes 0 ((st.next_byte + st.y) % 256), false)
  | .Relative =>
      let origin := st.pc
      let dest := (origin + i8_as_u16 st.next_byte) % 65536
      (dest, Cpu.different_pages origin dest)
  | .Indirect =>
      let addr := join_bytes (st.mem.get (st.pc + 2)) (st.mem.get (st.pc + 1))
      let high_byte_addr := if addr &&& 0x00FF = 0x00FF then addr &&& 0xFF00 else addr + 1
      (join_bytes (st.mem.get high_byte_addr) (st.mem.get addr), false)
  | .IndirectX =>
      let arg := (st.next_byte + st.x) % 256
      let low := st.mem.get (join_bytes 0 arg)
      let high := st.mem.get (join_bytes 0 ((arg + 1) % 256))
      (join_bytes high low, false)
  | .IndirectY =>
      let arg := st.next_byte
      let low := st.mem.get (join_bytes 0 arg)
      let high := st.mem.get (join_bytes 0 ((arg + 1) % 256))
      let origin := join_bytes high low
      let dest := (origin + st.y) % 65536
      (dest, Cpu.different_pages origin dest)

/-- Cpu::carry (bitflags contains). -/
def Cpu.carry (st : Cpu) : Bool := decide (st.p &&& Status.CARRY = Status.CARRY)

/-- Cpu::zero. -/
def Cpu.zero (st : Cpu) : Bool := decide (st.p &&& Status.ZERO = Status.ZERO)

/-- Cpu::overflow. -/
def Cpu.overflow (st : Cpu) : Bool := decide (st.p &&& Status.OVERFLOW = Status.OVERFLOW)

/-- Cpu::negative. -/
def Cpu.negative (st : Cpu) : Bool := decide (st.p &&& Status.NEGATIVE = Status.NEGATIVE)

/-- Cpu::interrupt_disabled. -/
def Cpu.interrupt_disabled (st : Cpu) : Bool :=
  decide (st.p &&& Status.INTERRUPT_DISABLE = Status.INTERRUPT_DISABLE)

/-- Cpu::set_flag. -/
def Cpu.set_flag (st : Cpu) (mask : Nat) (b : Bool) : Cpu :=
  { st with p := Status.set st.p mask b }

/-- Cpu::set_carry. -/
def Cpu.set_carry (st : Cpu) (b : Bool) : Cpu := st.set_flag Status.CARRY b

/-- Cpu::set_zero. -/
def Cpu.set_zero (st : Cpu) (b : Bool) : Cpu := st.set_flag Status.ZERO b

/-- Cpu::set_interrupt_disable. -/
def Cpu.set_interrupt_disable (st : Cpu) (b : Bool) : Cpu :=
  st.set_flag Status.INTERRUPT_DISABLE b

/-- Cpu::set_decimal. -/
def Cpu.set_decimal (st : Cpu) (b : Bool) : Cpu := st.set_flag Status.DECIMAL b

/-- Cpu::set_overflow. -/
def Cpu.set_overflow (st : Cpu) (b : Bool) : Cpu := st.set_flag Status.OVERFLOW b

/-- Cpu::set_negative. -/
def Cpu.set_negative (st : Cpu) (b : Bool) : Cpu := st.set_flag Status.NEGATIVE b

/-- Cpu::set_value_flags: Negative from bit 7, Zero from equality with 0. -/
def Cpu.set_value_flags (st : Cpu) (val : Nat) : Cpu :=
  (st.set_negative (decide (val &&& SIGN_BIT ≠ 0))).set_zero (decide (val = 0))

/-- Cpu::mem_write: a write to 0x4014 performs OAM DMA (copy the named page
to the PPU OAM buffer and add 513 to the pause counter) instead of a plain
bus write. -/
def Cpu.mem_write (st : Cpu) (addr v : Nat) : Cpu :=
  if addr = 0x4014 then
    let dma := st.mem.get_page (join_bytes v 0)
    { st with mem := st.mem.set_oamdma dma, remaining_pause := st.remaining_pause + 513 }
  else
    { st with mem := st.mem.set addr v }

/-- Cpu::stack_push. -/
def Cpu.stack_push (st : Cpu) (datum : Nat) : Cpu :=
  let st1 := st.mem_write (join_bytes 0x01 st.s) datum
  { st1 with s := (st1.s + 255) % 256 }

/-- Cpu::stack_pop: the state after the pop together with the byte read. -/
def Cpu.stack_pop (st : Cpu) : Cpu × Nat :=
  let s1 := (st.s + 1) % 256
  ({ st with s := s1 }, st.mem.get (join_bytes 0x01 s1))

/-- Cpu::interrupt: push PC high, PC low, then P or'ed with the mask, and
load PC from the vector. -/
def Cpu.interrupt (st : Cpu) (b_mask vector : Nat) : Cpu :=
  let st1 := st.stack_push ((st.pc >>> 8) % 256)
  let st2 := st1.stack_push (st1.pc % 256)
  let st3 := st2.stack_push (st2.p ||| b_mask)
  { st3 with pc := join_bytes (st3.mem.get (vector + 1)) (st3.mem.get vector) }

/-- Cpu::irq (the private handler): clear the latch, then service only when
InterruptDisable is clear. -/
def Cpu.irqStep (st : Cpu) : Cpu :=
  let st1 := { st with irq := false }
  if !st1.interrupt_disabled then st1.interrupt 0x30 IRQ_VECTOR else st1

/-- Cpu::nmi (the private handler). -/
def Cpu.nmiStep (st : Cpu) : Cpu :=
  ({ st with nmi := false }).interrupt 0x30 NMI_VECTOR

/-- Cpu::reset (the private handler). -/
def Cpu.resetStep (st : Cpu) : Cpu :=
  ({ st with reset := false }).interrupt 0x30 RESET_VECTOR

/-- Cpu::page_crossed_penalty. -/
def Cpu.page_crossed_penalty (st : Cpu) (pause : Nat) (op : Opcode)
    (page_crossed : Bool) : Nat :=
  if op.addOnCross && page_crossed then pause + 1 else pause

/-- Cpu::set_pause_and_return_shift. -/
def Cpu.set_pause_and_return_shift (st : Cpu) (pause : Nat) (op : Opcode)
    (page_crossed : Bool) : Cpu × Nat :=
  ({ st with remaining_pause := st.page_crossed_penalty pause op page_crossed },
   op.mode.byte_count)

/-- Cpu::_group_1_pause_and_shift; the unreachable arm is embedded as
none. -/
def Cpu.group_1_pause_and_shift (st : Cpu) (op : Opcode) (page_crossed : Bool) :
    Option (Cpu × Nat) :=
  match op.mode with
  | .Immediate => some (st.set_pause_and_return_shift 1 op page_crossed)
  | .ZeroPage => some (st.set_pause_and_return_shift 2 op page_crossed)
  | .ZeroPageX | .ZeroPageY | .Absolute => some (st.set_pause_and_return_shift 3 op page_crossed)
  | .AbsoluteX | .AbsoluteY => some (st.set_pause_and_return_shift 3 op page_crossed)
  | .IndirectX => some (st.set_pause_and_return_shift 5 op page_crossed)
  | .IndirectY => some (st.set_pause_and_return_shift 4 op page_crossed)
  | _ => none

/-- Cpu::_illegal_opcodes_pause_and_shift; the unreachable arm is embedded
as none. -/
def Cpu.illegal_pause_and_shift (st : Cpu) (op : Opcode) (page_crossed : Bool) :
    Option (Cpu × Nat) :=
  match op.mode with
  | .Absolute => some (st.set_pause_and_return_shift 5 op page_crossed)
  | .AbsoluteX | .AbsoluteY => some (st.set_pause_and_return_shift 6 op page_crossed)
  | .ZeroPage => some (st.set_pause_and_return_shift 4 op page_crossed)
  | .ZeroPageX => some (st.set_pause_and_return_shift 5 op page_crossed)
  | .IndirectX | .IndirectY => some (st.set_pause_and_return_shift 7 op page_crossed)
  | _ => none

/-- Cpu::flag_nmi. -/
def Cpu.flag_nmi (st : Cpu) : Cpu := { st with nmi := true }

/-- Cpu::flag_irq. -/
def Cpu.flag_irq (st : Cpu) : Cpu := { st with irq := true }

/-- Cpu::flag_reset. -/
def Cpu.flag_reset (st : Cpu) : Cpu := { st with reset := true }

/-- Cpu::flag_op. -/
def Cpu.flag_op (st : Cpu) (func : Cpu → Cpu) : Cpu × Nat :=
  let st1 := func st
  ({ st1 with remaining_pause := 2 }, 1)

/-- Cpu::transfer_op: the closure returns the updated state, the new value
and whether to update the value flags. -/
def Cpu.transfer_op (st : Cpu) (func : Cpu → Cpu × Nat × Bool) : Cpu × Nat :=
  let r := func st
  let st2 := if r.2.2 then r.1.set_value_flags r.2.1 else r.1
  ({ st2 with remaining_pause := 1 }, 1)

/-- Cpu::adc. -/
def Cpu.adc (st : Cpu) (op : Opcode) : Option (Cpu × Nat) :=
  let r := st.resolve_addr op
  let value := st.mem.get r.1
  let c : Nat := if st.carry then 1 else 0
  let signed_sum : Int := i8 value + i8 st.a + (c : Int)
  let first_add := (st.a + value) % 256
  let overflowing1 : Bool := decide (256 ≤ st.a + value)
  let second_add := (first_add + c) % 256
  let overflowing2 : Bool := decide (256 ≤ first_add + c)
  let st1 := { st with a := second_add }
  let st2 := st1.set_carry (overflowing1 || overflowing2)
  let st3 := st2.set_value_flags st2.a
  let st4 := st3.set_overflow (decide (signed_sum < -128 ∨ 127 < signed_sum))
  st4.group_1_pause_and_shift op r.2

/-- Cpu::and. -/
def Cpu.and (st : Cpu) (op : Opcode) : Option (Cpu × Nat) :=
  let operand := st.mem.get (st.resolve_addr op).1
  let st1 := { st with a := st.a &&& operand }
  let st2 := st1.set_value_flags st1.a
  st2.group_1_pause_and_shift op false

/-- The state-updating part of Cpu::asl (both branches of its if). -/
def Cpu.aslApply (st : Cpu) (op : Opcode) : Cpu :=
  if op.mode = .Accumulator then
    let bit_7 := decide (st.a &&& 0x80 ≠ 0)
    let st1 := { st with a := st.a * 2 % 256 }
    (st1.set_carry bit_7).set_value_flags st1.a
  else
    let addr := (st.resolve_addr op).1
    let value := st.mem.get addr
    let bit_7 := decide (value &&& 0x80 ≠ 0)
    let value1 := value * 2 % 256
    let st1 := (st.set_carry bit_7).set_value_flags value1
    st1.mem_write addr value1

/-- Cpu::asl; the arms reached only through SLO return shift 0 for SLO to
override, and the unreachable arm is embedded as none. -/
def Cpu.asl (st : Cpu) (op : Opcode) : Option (Cpu × Nat) :=
  let st1 := st.aslApply op
  match op.mode with
  | .Accumulator => some (st1.set_pause_and_return_shift 1 op false)
  | .ZeroPage => some (st1.set_pause_and_return_shift 4 op false)
  | .ZeroPageX | .Absolute => some (st1.set_pause_and_return_shift 5 op false)
  | .AbsoluteX => some (st1.set_pause_and_return_shift 6 op false)
  | .AbsoluteY | .IndirectX | .IndirectY => some (st1, 0)
  | _ => none

/-- Cpu::bit. -/
def Cpu.bit (st : Cpu) (op : Opcode) : Option (Cpu × Nat) :=
  let r := st.resolve_addr op
  let value := st.mem.get r.1
  let st1 := ((st.set_negative (decide (value &&& SIGN_BIT ≠ 0))).set_overflow
    (decide (value &&& 0x40 ≠ 0))).set_zero (decide (value &&& st.a = 0))
  match op.mode with
  | .ZeroPage => some (st1.set_pause_and_return_shift 2 op r.2)
  | .Absolute => some (st1.set_pause_and_return_shift 3 op r.2)
  | _ => none

/-- Cpu::branch_op. -/
def Cpu.branch_op (st : Cpu) (op : Opcode) (branch : Bool) : Cpu × Nat :=
  let st1 := { st with remaining_pause := 2 }
  if branch then
    let r := st1.resolve_addr op
    let st2 := { st1 with pc := r.1 }
    ({ st2 with remaining_pause := st2.remaining_pause + (if r.2 then 3 else 1) }, 2)
  else (st1, 2)

/-- Cpu::brk: increment PC; a no-op when InterruptDisable is set, else push
return and status and jump through the IRQ vector. -/
def Cpu.brk (st : Cpu) (_op : Opcode) : Cpu × Nat :=
  let st1 := { st with pc := (st.pc + 1) % 65536 }
  if st1.interrupt_disabled then (st1, 0)
  else
    let st2 := { st1 with remaining_pause := 6 }
    (st2.interrupt 0x30 IRQ_VECTOR, 0)

/-- Cpu::compare_op. -/
def Cpu.compare_op (st : Cpu) (op : Opcode) (reg : Nat) : Option (Cpu × Nat) :=
  let r := st.resolve_addr op
  let value := st.mem.get r.1
  let st1 := (st.set_carry (decide (value ≤ reg))).set_zero (decide (reg = value))
  let result := (reg + 256 - value) % 256
  let st2 := st1.set_negative (decide (128 ≤ result))
  st2.group_1_pause_and_shift op r.2

/-- Cpu::increment: the new value, its flags, and the pause/shift dispatch
(whose default arm, reached only via illegal opcodes, changes no pause and
returns shift 0). -/
def Cpu.increment (st : Cpu) (v : Nat) (op : Opcode) (decrement : Bool) :
    Cpu × Nat × Nat :=
  let val := if decrement then (v + 255) % 256 else (v + 1) % 256
  let st1 := st.set_value_flags val
  match op.mode with
  | .Implicit =>
      let r := st1.set_pause_and_return_shift 1 op false
      (r.1, val, r.2)
  | .ZeroPage =>
      let r := st1.set_pause_and_return_shift 4 op false
      (r.1, val, r.2)
  | .ZeroPageX | .Absolute =>
      let r := st1.set_pause_and_return_shift 5 op false
      (r.1, val, r.2)
  | .AbsoluteX =>
      let r := st1.set_pause_and_return_shift 6 op false
      (r.1, val, r.2)
  | _ => (st1, val, 0)

/-- Cpu::dec. -/
def Cpu.dec (st : Cpu) (op : Opcode) : Cpu × Nat :=
  let addr := (st.resolve_addr op).1
  let r := st.increment (st.mem.get addr) op true
  (r.1.mem_write addr r.2.1, r.2.2)

/-- Cpu::dex. -/
def Cpu.dex (st : Cpu) (op : Opcode) : Cpu × Nat :=
  let r := st.increment st.x op true
  ({ r.1 with x := r.2.1 }, r.2.2)

/-- Cpu::dey. -/
def Cpu.dey (st : Cpu) (op : Opcode) : Cpu × Nat :=
  let r := st.increment st.y op true
  ({ r.1 with y := r.2.1 }, r.2.2)

/-- Cpu::eor. -/
def Cpu.eor (st : Cpu) (op : Opcode) : Option (Cpu × Nat) :=
  let r := st.resolve_addr op
  let st1 := { st with a := st.a ^^^ st.mem.get r.1 }
  let st2 := st1.set_value_flags st1.a
  st2.group_1_pause_and_shift op r.2

/-- Cpu::inc. -/
def Cpu.inc (st : Cpu) (op : Opcode) : Cpu × Nat :=
  let addr := (st.resolve_addr op).1
  let r := st.increment (st.mem.get addr) op false
  (r.1.mem_write addr r.2.1, r.2.2)

/-- Cpu::inx. -/
def Cpu.inx (st : Cpu) (op : Opcode) : Cpu × Nat :=
  let r := st.increment st.x op false
  ({ r.1 with x := r.2.1 }, r.2.2)

/-- Cpu::iny. -/
def Cpu.iny (st : Cpu) (op : Opcode) : Cpu × Nat :=
  let r := st.increment st.y op false
  ({ r.1 with y := r.2.1 }, r.2.2)

/-- Cpu::jmp; the unreachable arm is embedded as none. -/
def Cpu.jmp (st : Cpu) (op : Opcode) : Option (Cpu × Nat) :=
  let addr := (st.resolve_addr op).1
  let st1 := { st with pc := addr }
  match op.mode with
  | .Absolute => some ({ st1 with remaining_pause := 2 }, 0)
  | .Indirect => some ({ st1 with remaining_pause := 4 }, 0)
  | _ => none

/-- Cpu::jsr: push (PC+2) high then low, jump to the target. -/
def Cpu.jsr (st : Cpu) (op : Opcode) : Cpu × Nat :=
  let addr := (st.resolve_addr op).1
  let ret := (st.pc + 2) % 65536
  let st1 := st.stack_push (ret >>> 8)
  let st2 := st1.stack_push (ret % 256)
  ({ st2 with pc := addr, remaining_pause := 5 }, 0)

/-- Cpu::lda. -/
def Cpu.lda (st : Cpu) (op : Opcode) : Option (Cpu × Nat) :=
  let r := st.resolve_addr op
  let value := st.mem.get r.1
  let st1 := ({ st with a := value }).set_value_flags value
  st1.group_1_pause_and_shift op r.2

/-- Cpu::ldx. -/
def Cpu.ldx (st : Cpu) (op : Opcode) : Option (Cpu × Nat) :=
  let r := st.resolve_addr op
  let value := st.mem.get r.1
  let st1 := ({ st with x := value }).set_value_flags value
  st1.group_1_pause_and_shift op r.2

/-- Cpu::ldy. -/
def Cpu.ldy (st : Cpu) (op : Opcode) : Option (Cpu × Nat) :=
  let r := st.resolve_addr op
  let value := st.mem.get r.1
  let st1 := ({ st with y := value }).set_value_flags value
  st1.group_1_pause_and_shift op r.2

/-- Cpu::lax: lda, then a TAX-style transfer, then value flags from X; the
unreachable arm (Immediate, opcode 0xAB) panics and is embedded as none. -/
def Cpu.lax (st : Cpu) (op : Opcode) : Option (Cpu × Nat) :=
  match st.lda op with
  | none => none
  | some r1 =>
      let r2 := r1.1.transfer_op (fun cpu => ({ cpu with x := cpu.a }, cpu.a, true))
      let st3 := r2.1.set_value_flags r2.1.x
      match op.mode with
      | .IndirectX => some (st3.set_pause_and_return_shift 0 op false)
      | .ZeroPage => some (st3.set_pause_and_return_shift 0 op false)
      | .Absolute | .ZeroPageY => some (st3.set_pause_and_return_shift 3 op false)
      | .IndirectY => some (st3.set_pause_and_return_shift 0 op false)
      | .AbsoluteY => some (st3.set_pause_and_return_shift 0 op false)
      | _ => none

/-- The state-updating part of Cpu::lsr (both branches of its if). -/
def Cpu.lsrApply (st : Cpu) (op : Opcode) : Cpu :=
  if op.mode = .Accumulator then
    let bit_1 := decide (st.a &&& 0x01 ≠ 0)
    let st1 := { st with a := st.a / 2 }
    (st1.set_carry bit_1).set_value_flags st1.a
  else
    let addr := (st.resolve_addr op).1
    let value := st.mem.get addr
    let bit_1 := decide (value &&& 0x01 ≠ 0)
    let value1 := value / 2
    let st1 := (st.set_carry bit_1).set_value_flags value1
    st1.mem_write addr value1

/-- Cpu::lsr; the SRE-only arms return shift 0, the unreachable arm is
none. -/
def Cpu.lsr (st : Cpu) (op : Opcode) : Option (Cpu × Nat) :=
  let st1 := st.lsrApply op
  match op.mode with
  | .Accumulator => some (st1.set_pause_and_return_shift 1 op false)
  | .ZeroPage => some (st1.set_pause_and_return_shift 4 op false)
  | .ZeroPageX | .Absolute => some (st1.set_pause_and_return_shift 5 op false)
  | .AbsoluteX => some (st1.set_pause_and_return_shift 6 op false)
  | .AbsoluteY | .IndirectX | .IndirectY => some (st1, 0)
  | _ => none

/-- Cpu::nop. -/
def Cpu.nop (st : Cpu) (op : Opcode) : Cpu × Nat :=
  ({ st with remaining_pause := 2 }, op.mode.byte_count)

/-- Cpu::ora. -/
def Cpu.ora (st : Cpu) (op : Opcode) : Option (Cpu × Nat) :=
  let r := st.resolve_addr op
  let st1 := { st with a := st.a ||| st.mem.get r.1 }
  let st2 := st1.set_value_flags st1.a
  st2.group_1_pause_and_shift op r.2

/-- Cpu::php: push P with bits 4 and 5 forced on. -/
def Cpu.php (st : Cpu) (_op : Opcode) : Cpu × Nat :=
  let st1 := st.stack_push (st.p ||| PHP_MASK)
  ({ st1 with remaining_pause := 2 }, 1)

/-- Cpu::pha. -/
def Cpu.pha (st : Cpu) (_op : Opcode) : Cpu × Nat :=
  let st1 := st.stack_push st.a
  ({ st1 with remaining_pause := 2 }, 1)

/-- Cpu::pla. -/
def Cpu.pla (st : Cpu) (_op : Opcode) : Cpu × Nat :=
  let r := st.stack_pop
  let st1 := ({ r.1 with a := r.2 }).set_value_flags r.2
  ({ st1 with remaining_pause := 3 }, 1)

/-- Cpu::plp: pop, mask out the PHP bits, truncate to defined flags. -/
def Cpu.plp (st : Cpu) (_op : Opcode) : Cpu × Nat :=
  let r := st.stack_pop
  let st1 := { r.1 with p := Status.from_bits_truncate (r.2 &&& (0xFF ^^^ PHP_MASK)) }
  ({ st1 with remaining_pause := 3 }, 1)

/-- Cpu::rol_internal. -/
def Cpu.rol_internal (st : Cpu) (value : Nat) : Cpu × Nat :=
  let old_carry := st.carry
  let st1 := st.set_carry (decide (value &&& 0x80 ≠ 0))
  let out0 := value * 2 % 256
  let out := if old_carry then out0 ^^^ 0x01 else out0
  (st1.set_value_flags out, out)

/-- The state-updating part of Cpu::rol. -/
def Cpu.rolApply (st : Cpu) (op : Opcode) : Cpu :=
  if op.mode = .Accumulator then
    let r := st.rol_internal st.a
    { r.1 with a := r.2 }
  else
    let addr := (st.resolve_addr op).1
    let r := st.rol_internal (st.mem.get addr)
    r.1.mem_write addr r.2

/-- Cpu::rol; the RLA-only arms return shift 0, the unreachable arm is
none. -/
def Cpu.rol (st : Cpu) (op : Opcode) : Option (Cpu × Nat) :=
  let st1 := st.rolApply op
  match op.mode with
  | .Accumulator => some (st1.set_pause_and_return_shift 1 op false)
  | .ZeroPage => some (st1.set_pause_and_return_shift 4 op false)
  | .ZeroPageX | .Absolute => some (st1.set_pause_and_return_shift 5 op false)
  | .AbsoluteX => some (st1.set_pause_and_return_shift 6 op false)
  | .AbsoluteY | .IndirectX | .IndirectY => some (st1, 0)
  | _ => none

/-- Cpu::ror_internal. -/
def Cpu.ror_internal (st : Cpu) (value : Nat) : Cpu × Nat :=
  let old_carry := st.carry
  let st1 := st.set_carry (decide (value &&& 0x01 ≠ 0))
  let out0 := value / 2
  let out := if old_carry then out0 ^^^ 0x80 else out0
  (st1.set_value_flags out, out)

/-- The state-updating part of Cpu::ror. -/
def Cpu.rorApply (st : Cpu) (op : Opcode) : Cpu :=
  if op.mode = .Accumulator then
    let r := st.ror_internal st.a
    { r.1 with a := r.2 }
  else
    let addr := (st.resolve_addr op).1
    let r := st.ror_internal (st.mem.get addr)
    r.1.mem_write addr r.2

/-- Cpu::ror; the RRA-only arms return shift 0, the unreachable arm is
none. -/
def Cpu.ror (st : Cpu) (op : Opcode) : Option (Cpu × Nat) :=
  let st1 := st.rorApply op
  match op.mode with
  | .Accumulator => some (st1.set_pause_and_return_shift 1 op false)
  | .ZeroPage => some (st1.set_pause_and_return_shift 4 op false)
  | .ZeroPageX | .Absolute => some (st1.set_pause_and_return_shift 5 op false)
  | .AbsoluteX => some (st1.set_pause_and_return_shift 6 op false)
  | .AbsoluteY | .IndirectX | .IndirectY => some (st1, 0)
  | _ => none

/-- Cpu::rts: pop low then high, join into PC, add 5 to the pause (so RTI
can reuse it). -/
def Cpu.rts (st : Cpu) (_op : Opcode) : Cpu × Nat :=
  let r1 := st.stack_pop
  let r2 := r1.1.stack_pop
  let st3 := { r2.1 with pc := join_bytes r2.2 r1.2 }
  ({ st3 with remaining_pause := st3.remaining_pause + 5 }, 1)

/-- Cpu::rti: pop P (truncated), bump the pause, reuse rts, and advance no
byte. -/
def Cpu.rti (st : Cpu) (op : Opcode) : Cpu × Nat :=
  let r := st.stack_pop
  let st1 := { r.1 with p := Status.from_bits_truncate r.2 }
  let st2 := { st1 with remaining_pause := st1.remaining_pause + 1 }
  let r2 := st2.rts op
  (r2.1, 0)

/-- Cpu::sax: store A AND X; the unreachable arm is none. -/
def Cpu.sax (st : Cpu) (op : Opcode) : Option (Cpu × Nat) :=
  let st1 := st.mem_write (st.resolve_addr op).1 (st.a &&& st.x)
  match op.mode with
  | .ZeroPage => some (st1.set_pause_and_return_shift 2 op false)
  | .Absolute | .ZeroPageY => some (st1.set_pause_and_return_shift 3 op false)
  | .IndirectX => some (st1.set_pause_and_return_shift 5 op false)
  | _ => none

/-- Cpu::sbc.  Note the signed-overflow computation reads
operand - A - (1 - C), with the operands in that order, as the source
does. -/
def Cpu.sbc (st : Cpu) (op : Opcode) : Option (Cpu × Nat) :=
  let r := st.resolve_addr op
  let value := st.mem.get r.1
  let c : Nat := if st.carry then 1 else 0
  let signed_sum : Int := i8 value - i8 st.a - (1 - (c : Int))
  let first_sub := (st.a + 256 - value) % 256
  let overflowing1 : Bool := decide (st.a < value)
  let second_sub := (first_sub + 256 - (1 - c)) % 256
  let overflowing2 : Bool := decide (first_sub < 1 - c)
  let st1 := { st with a := second_sub }
  let st2 := st1.set_carry (!(overflowing1 || overflowing2))
  let st3 := st2.set_value_flags st2.a
  let st4 := st3.set_overflow (decide (signed_sum < -128 ∨ 127 < signed_sum))
  st4.group_1_pause_and_shift op r.2

/-- Cpu::store; the unreachable arm is none. -/
def Cpu.store (st : Cpu) (op : Opcode) (value : Nat) : Option (Cpu × Nat) :=
  let st1 := st.mem_write (st.resolve_addr op).1 value
  match op.mode with
  | .ZeroPage => some (st1.set_pause_and_return_shift 2 op false)
  | .ZeroPageX | .ZeroPageY | .Absolute => some (st1.set_pause_and_return_shift 3 op false)
  | .AbsoluteX | .AbsoluteY => some (st1.set_pause_and_return_shift 4 op false)
  | .IndirectX | .IndirectY => some (st1.set_pause_and_return_shift 5 op false)
  | _ => none

/-- Cpu::illegal_op: run the two-step closure, zero the pause set by the
component handlers, then apply the illegal-opcode pause table. -/
def Cpu.illegal_op (st : Cpu) (op : Opcode) (func : Cpu → Opcode → Option Cpu) :
    Option (Cpu × Nat) :=
  match func st op with
  | none => none
  | some st1 => ({ st1 with remaining_pause := 0 }).illegal_pause_and_shift op false

/-- DCP = DEC then CMP against A. -/
def Cpu.dcpStep (st : Cpu) (op : Opcode) : Option Cpu :=
  let r := st.dec op
  (r.1.compare_op op r.1.a).map fun x => x.1

/-- ISC = INC then SBC. -/
def Cpu.iscStep (st : Cpu) (op : Opcode) : Option Cpu :=
  let r := st.inc op
  (r.1.sbc op).map fun x => x.1

/-- SLO = ASL then ORA. -/
def Cpu.sloStep (st : Cpu) (op : Opcode) : Option Cpu :=
  match st.asl op with
  | none => none
  | some r => (r.1.ora op).map fun x => x.1

/-- SRE = LSR then EOR. -/
def Cpu.sreStep (st : Cpu) (op : Opcode) : Option Cpu :=
  match st.lsr op with
  | none => none
  | some r => (r.1.eor op).map fun x => x.1

/-- RRA = ROR then ADC. -/
def Cpu.rraStep (st : Cpu) (op : Opcode) : Option Cpu :=
  match st.ror op with
  | none => none
  | some r => (r.1.adc op).map fun x => x.1

/-- RLA = ROL then AND. -/
def Cpu.rlaStep (st : Cpu) (op : Opcode) : Option Cpu :=
  match st.rol op with
  | none => none
  | some r => (r.1.and op).map fun x => x.1

/-- The dispatch match of Cpu::execute_opcode: run the handler for the
operation, returning the updated state and the PC shift.  The arm for the
remaining unofficial opcodes is unimplemented! in the source and embedded
as none. -/
def Cpu.execute_inner (st : Cpu) (op : Opcode) : Option (Cpu × Nat) :=
  match op.op with
    | .ADC => st.adc op
    | .AND => st.and op
    | .ASL => st.asl op
    | .BIT => st.bit op
    | .BRK => some (st.brk op)
    | .EOR => st.eor op
    | .DEC => some (st.dec op)
    | .DEX => some (st.dex op)
    | .DEY => some (st.dey op)
    | .INC => some (st.inc op)
    | .INX => some (st.inx op)
    | .INY => some (st.iny op)
    | .JMP => st.jmp op
    | .JSR => some (st.jsr op)
    | .LDA => st.lda op
    | .LDX => st.ldx op
    | .LDY => st.ldy op
    | .LSR => st.lsr op
    | .NOP => some (st.nop op)
    | .ORA => st.ora op
    | .PHP => some (st.php op)
    | .PHA => some (st.pha op)
    | .PLA => some (st.pla op)
    | .PLP => some (st.plp op)
    | .ROL => st.rol op
    | .ROR => st.ror op
    | .RTI => some (st.rti op)
    | .RTS => some (st.rts op)
    | .SBC => st.sbc op
    | .STA => st.store op st.a
    | .STX => st.store op st.x
    | .STY => st.store op st.y
    | .LAX => st.lax op
    | .SAX => st.sax op
    | .DCP => st.illegal_op op Cpu.dcpStep
    | .ISC => st.illegal_op op Cpu.iscStep
    | .SLO => st.illegal_op op Cpu.sloStep
    | .SRE => st.illegal_op op Cpu.sreStep
    | .RRA => st.illegal_op op Cpu.rraStep
    | .RLA => st.illegal_op op Cpu.rlaStep
    | .CMP => st.compare_op op st.a
    | .CPX => st.compare_op op st.x
    | .CPY => st.compare_op op st.y
    | .BCS => some (st.branch_op op st.carry)
    | .BCC => some (st.branch_op op (!st.carry))
    | .BEQ => some (st.branch_op op st.zero)
    | .BNE => some (st.branch_op op (!st.zero))
    | .BVS => some (st.branch_op op st.overflow)
    | .BVC => some (st.branch_op op (!st.overflow))
    | .BMI => some (st.branch_op op st.negative)
    | .BPL => some (st.branch_op op (!st.negative))
    | .SEC => some (st.flag_op fun cpu => cpu.set_carry true)
    | .SED => some (st.flag_op fun cpu => cpu.set_decimal true)
    | .SEI => some (st.flag_op fun cpu => cpu.set_interrupt_disable true)
    | .CLC => some (st.flag_op fun cpu => cpu.set_carry false)
    | .CLD => some (st.flag_op fun cpu => cpu.set_decimal false)
    | .CLI => some (st.flag_op fun cpu => cpu.set_interrupt_disable false)
    | .CLV => some (st.flag_op fun cpu => cpu.set_overflow false)
    | .TAX => some (st.transfer_op fun cpu => ({ cpu with x := cpu.a }, cpu.a, true))
    | .TAY => some (st.transfer_op fun cpu => ({ cpu with y := cpu.a }, cpu.a, true))
    | .TXS => some (st.transfer_op fun cpu => ({ cpu with s := cpu.x }, cpu.x, false))
    | .TSX => some (st.transfer_op fun cpu => ({ cpu with x := cpu.s }, cpu.s, true))
    | .TXA => some (st.transfer_op fun cpu => ({ cpu with a := cpu.x }, cpu.x, true))
    | .TYA => some (st.transfer_op fun cpu => ({ cpu with a := cpu.y }, cpu.y, true))
    | _ => none

/-- The PC advance wrapped around the dispatch (the `self.pc += match` of
Cpu::execute_opcode). -/
def Cpu.execute_opcode (st : Cpu) (op : Opcode) : Option Cpu :=
  match st.execute_inner op with
  | none => none
  | some r => some { r.1 with pc := (r.1.pc + r.2) % 65536 }

/-- Cpu::tick (impl Clocked): consume a pause tick, else service NMI, IRQ
or RESET, else fetch, count and execute one instruction. -/
def Cpu.tick (st : Cpu) : Option Cpu :=
  if 0 < st.remaining_pause then some { st with remaining_pause := st.remaining_pause - 1 }
  else if st.nmi then some st.nmiStep
  else if st.irq then some st.irqStep
  else if st.reset then some st.resetStep
  else
    let st1 := { st with instruction_counter := st.instruction_counter + 1 }
    st1.execute_opcode (resolve (st1.mem.get st1.pc))

/-- The CPU states reachable from power-up under ticks and external
interrupt-latch flags. -/
inductive Reachable : Cpu → Prop
  | init (mem : CpuMem) (test_mode : Bool) : Reachable (Cpu.new mem test_mode)
  | step {st st2 : Cpu} : Reachable st → Cpu.tick st = some st2 → Reachable st2
  | nmiLatch {st : Cpu} : Reachable st → Reachable st.flag_nmi
  | irqLatch {st : Cpu} : Reachable st → Reachable st.flag_irq
  | resetLatch {st : Cpu} : Reachable st → Reachable st.flag_reset

/-- A concrete memory bus built from an association list of address/byte
pairs (unlisted addresses read 0), with an empty OAM buffer. -/
def memOf (l : List (Nat × Nat)) : CpuMem :=
  { data := fun addr => ((l.lookup addr).getD 0), oamdma := [] }

/-- A CPU state about to see a masked IRQ: pause 0, no NMI, irq and reset
both latched, and InterruptDisable set (power-up P = 0x24). -/
def cpu_c1_cex : Cpu :=
  { Cpu.new (memOf []) true with irq := true, reset := true }

/-- A CPU state with an IRQ latched and InterruptDisable clear. -/
def cpu_c1_w2 : Cpu :=
  { Cpu.new (memOf []) true with irq := true, p := 0x20 }

/-- A CPU about to execute STA $4014 (bytes 8D 14 40 at PC) with A = 0x02;
page 0x02 holds 0xAB at its first byte. -/
def cpu_c3 : Cpu :=
  { Cpu.new (memOf [(0x8000, 0x8D), (0x8001, 0x14), (0x8002, 0x40), (0x0200, 0xAB)]) true
    with a := 0x02 }

/-- A CPU about to execute SBC #$80 (bytes E9 80 at PC) with A = 0x00 and
carry set (P = 0x25). -/
def cpu_c4 : Cpu :=
  { Cpu.new (memOf [(0x8000, 0xE9), (0x8001, 0x80)]) true with a := 0x00, p := 0x25 }

/-- A CPU about to execute SBC #$01 with A = 0x00 and carry set (the
spec's concrete borrow scenario). -/
def cpu_c4b : Cpu :=
  { Cpu.new (memOf [(0x8000, 0xE9), (0x8001, 0x01)]) true with a := 0x00, p := 0x25 }

/-! ## Theorems: the claims and their supporting lemmas -/

/-- Bit 10 of the sum stays k's bits: masking an address in the first
nametable page with 0x3FF recovers the page offset. -/
theorem and_3FF_of_lt (k : Nat) (hk : k < 0x400) : (0x2000 + k) &&& 0x3FF = k := by
  have h := Nat.and_pow_two_sub_one_eq_mod (0x2000 + k) 10
  norm_num at h
  rw [h]
  omega

/-- Bit 11 of an address in the first nametable page is clear. -/
theorem and_800_of_lt (k : Nat) (hk : k < 0x400) : (0x2000 + k) &&& 0x800 = 0 := by
  have hb : (0x2000 + k).testBit 11 = false := by
    rw [Nat.testBit_to_div_mod]
    have h4 : (0x2000 + k) / 2 ^ 11 = 4 := by omega
    rw [h4]
    norm_num
  have h := Nat.and_two_pow (0x2000 + k) 11
  rw [hb] at h
  norm_num at h
  exact h

/-- Masking an address in the first two nametable pages with 0x7FF recovers
the page offset. -/
theorem and_7FF_of_lt (k : Nat) (hk : k < 0x800) : (0x2000 + k) &&& 0x7FF = k := by
  have h := Nat.and_pow_two_sub_one_eq_mod (0x2000 + k) 11
  norm_num at h
  rw [h]
  omega

/-- On offsets the nametable-mirror function maps identically, the VRAM index
of a nametable address is its offset. -/
theorem Nrom.mirrored_addr_eq (n : Nrom) (k : Nat)
    (h : k < 0x400 ∨ (n.nametable_mirror = NametableMirror.vertical ∧ k < 0x800)) :
    n.mirrored_addr (0x2000 + k) = k := by
  cases hm : n.nametable_mirror with
  | horizontal =>
      have hk : k < 0x400 := by
        rcases h with h | ⟨hv, _⟩
        · exact h
        · rw [hm] at hv
          exact absurd hv (by simp)
      simp only [Nrom.mirrored_addr, NametableMirror.mirrored_addr, hm]
      rw [and_3FF_of_lt k hk, and_800_of_lt k hk, Nat.zero_shiftRight, Nat.or_zero]
      omega
  | vertical =>
      have hk : k < 0x800 := by
        rcases h with h | ⟨_, h⟩
        · omega
        · exact h
      simp only [Nrom.mirrored_addr, NametableMirror.mirrored_addr, hm]
      rw [and_7FF_of_lt k hk]
      omega

/-- C5 (counterexample): with horizontal mirroring, reading 0x3400 returns
VRAM index 0x400 while reading 0x2400 returns the mirrored index 0x000, so
the claimed equality fails at k = 0x400 on this VRAM content. -/
theorem C5_counterexample :
    nrom_c5.get_ppu_space (0x3000 + 0x400) = some 1 ∧
    nrom_c5.get_ppu_space (0x2000 + 0x400) = some 0 := by
  constructor <;> rfl

/-- C5 (amended): the 0x3000 shadow read agrees with the 0x2000 nametable
read for every mapper state exactly on the offsets the mirror function maps
identically: all k < 0x400, and additionally all k < 0x800 under vertical
mirroring. -/
theorem C5_shadow_agrees_on_unmirrored_offsets (n : Nrom) (k : Nat)
    (h : k < 0x400 ∨ (n.nametable_mirror = NametableMirror.vertical ∧ k < 0x800)) :
    n.get_ppu_space (0x3000 + k) = n.get_ppu_space (0x2000 + k) := by
  have hk : k < 0x800 := by
    rcases h with h | ⟨_, h⟩
    · omega
    · exact h
  unfold Nrom.get_ppu_space
  rw [if_neg (by omega), if_neg (by omega), if_pos (by omega),
      if_neg (by omega), if_pos (by omega), Nrom.mirrored_addr_eq n k h]
  have h3 : 0x3000 + k - 0x3000 = k := by omega
  rw [h3]

/-- Closed instance of the amended C5 theorem at a concrete offset. -/
theorem C5_witness :
    nrom_c5.get_ppu_space (0x3000 + 0x123) = nrom_c5.get_ppu_space (0x2000 + 0x123) :=
  C5_shadow_agrees_on_unmirrored_offsets nrom_c5 0x123 (Or.inl (by norm_num))

/-- C2 (code evaluation at the failing input): with header flags byte 6 equal
to 0x04 (bit 2 set) and ROM sections large enough for the slices, Nrom::new
succeeds but still produces a mapper without PRG-RAM — the source tests the
masked flags with == 1, which the mask value 4 never satisfies — and reads
of 0x6000 and 0x7FFF fail. -/
theorem C2_prg_ram_absent_despite_flag :
    (Nrom.new header_c2 rom_c2).map
      (fun n => (n.prg_ram.isSome, n.get_cpu_space 0x6000, n.get_cpu_space 0x7FFF)) =
    some (false, none, none) := by
  have hlen : rom_c2.length = 0x6000 := by
    rw [rom_c2, List.length_replicate]
  unfold Nrom.new
  rw [hlen]
  rfl

/-- C6: for a 32 KiB NROM the whole 0x8000-0xFFFF window reads PRG-ROM at
offset addr - 0x8000, and for a 16 KiB NROM the 0xC000 window mirrors the
0x8000 window. -/
theorem C6_prg_rom_mapping (n : Nrom) (k : Nat) :
    (n.rom_size = RomSize.thirtyTwo → k < 0x8000 →
      n.get_cpu_space (0x8000 + k) = some (n.prg_rom k)) ∧
    (n.rom_size = RomSize.sixteen → k < 0x4000 →
      n.get_cpu_space (0xC000 + k) = n.get_cpu_space (0x8000 + k)) := by
  constructor
  · intro h32 hk
    unfold Nrom.get_cpu_space
    rw [if_neg (by omega), if_neg (by omega), if_neg (by omega)]
    by_cases hlt : 0x8000 + k ≤ 0xBFFF
    · rw [if_pos hlt]
      have : 0x8000 + k - 0x8000 = k := by omega
      rw [this]
    · rw [if_neg hlt, h32]
      have : 0x8000 + k - 0x8000 = k := by omega
      rw [this]
  · intro h16 hk
    have hL : n.get_cpu_space (0xC000 + k) = some (n.prg_rom k) := by
      simp only [Nrom.get_cpu_space, h16]
      rw [if_neg (by omega), if_neg (by omega), if_neg (by omega), if_neg (by omega)]
      have : 0xC000 + k - 0xC000 = k := by omega
      rw [this]
    have hR : n.get_cpu_space (0x8000 + k) = some (n.prg_rom k) := by
      unfold Nrom.get_cpu_space
      rw [if_neg (by omega), if_neg (by omega), if_neg (by omega), if_pos (by omega)]
      have : 0x8000 + k - 0x8000 = k := by omega
      rw [this]
    rw [hL, hR]

/-- Closed instance of the C6 theorem at concrete offsets. -/
theorem C6_witness :
    nrom_c6a.get_cpu_space (0x8000 + 5) = some (nrom_c6a.prg_rom 5) ∧
    nrom_c6b.get_cpu_space (0xC000 + 7) = nrom_c6b.get_cpu_space (0x8000 + 7) :=
  ⟨(C6_prg_rom_mapping nrom_c6a 5).1 rfl (by norm_num),
   (C6_prg_rom_mapping nrom_c6b 7).2 rfl (by norm_num)⟩

/-- C10: PPU-space writes succeed on 0x0000-0x3EFF and fail on
0x3F00-0xFFFF, and a write in the CHR range is read back by a subsequent
read at the same address. -/
theorem C10_set_ppu_space_ranges (n : Nrom) (addr v : Nat) :
    (addr ≤ 0x3EFF → (n.set_ppu_space addr v).isSome = true) ∧
    (0x3F00 ≤ addr → addr ≤ 0xFFFF → n.set_ppu_space addr v = none) ∧
    (addr ≤ 0x1FFF →
      (n.set_ppu_space addr v).map (fun n2 => n2.get_ppu_space addr) = some (some v)) := by
  refine ⟨?_, ?_, ?_⟩
  · intro h
    unfold Nrom.set_ppu_space
    by_cases h1 : addr ≤ 0x1FFF
    · rw [if_pos h1]
      rfl
    · by_cases h2 : addr ≤ 0x2FFF
      · rw [if_neg h1, if_pos h2]
        rfl
      · rw [if_neg h1, if_neg h2, if_pos (by omega)]
        rfl
  · intro h1 h2
    unfold Nrom.set_ppu_space
    rw [if_neg (by omega), if_neg (by omega), if_neg (by omega)]
  · intro h
    unfold Nrom.set_ppu_space
    rw [if_pos h]
    simp only [Option.map_some']
    unfold Nrom.get_ppu_space
    rw [if_pos h]
    simp [updateFn]

/-- Closed instance of the C10 theorem at concrete inputs. -/
theorem C10_witness :
    (nrom_c6a.set_ppu_space 0x2ABC 7).isSome = true ∧
    nrom_c6a.set_ppu_space 0x3F00 7 = none ∧
    (nrom_c6a.set_ppu_space 0x15 0xAB).map (fun n2 => n2.get_ppu_space 0x15) =
      some (some 0xAB) :=
  ⟨(C10_set_ppu_space_ranges nrom_c6a 0x2ABC 7).1 (by norm_num),
   (C10_set_ppu_space_ranges nrom_c6a 0x3F00 7).2.1 (by norm_num) (by norm_num),
   (C10_set_ppu_space_ranges nrom_c6a 0x15 0xAB).2.2 (by norm_num)⟩

theorem Apu.clock_channels_enabled (a : Apu) (h : Bool) :
    (a.clock_channels h).enabled = a.enabled := by
  cases h <;> rfl

theorem Apu.clock_channels_samples (a : Apu) (h : Bool) :
    (a.clock_channels h).samples = a.samples := by
  cases h <;> rfl

theorem Apu.frameStep_enabled (a : Apu) : a.frameStep.enabled = a.enabled := by
  unfold Apu.frameStep
  repeat' split
  all_goals simp [Apu.clock_channels_enabled]

theorem Apu.frameStep_samples (a : Apu) : a.frameStep.samples = a.samples := by
  unfold Apu.frameStep
  repeat' split
  all_goals simp [Apu.clock_channels_samples]

theorem Apu.pulseTickStep_enabled (a : Apu) : a.pulseTickStep.enabled = a.enabled := by
  unfold Apu.pulseTickStep
  split <;> rfl

theorem Apu.pulseTickStep_samples (a : Apu) : a.pulseTickStep.samples = a.samples := by
  unfold Apu.pulseTickStep
  split <;> rfl

theorem Apu.sampleStep_enabled (a : Apu) : a.sampleStep.enabled = a.enabled := by
  unfold Apu.sampleStep
  repeat' split
  all_goals rfl

theorem Apu.sampleStep_samples (a : Apu) :
    a.sampleStep.samples = a.samples ∨
    a.sampleStep.samples = a.samples ++ [a.mixedSample] := by
  unfold Apu.sampleStep
  repeat' split
  · right
    rfl
  · left
    rfl
  · left
    rfl

theorem Apu.tick_enabled (a : Apu) : a.tick.enabled = a.enabled := by
  show a.pulseTickStep.frameStep.sampleStep.enabled = a.enabled
  rw [Apu.sampleStep_enabled, Apu.frameStep_enabled, Apu.pulseTickStep_enabled]

theorem Apu.tickN_enabled (a : Apu) (m : Nat) : (a.tickN m).enabled = a.enabled := by
  induction m with
  | zero => rfl
  | succ m ih => rw [Apu.tickN, Apu.tick_enabled, ih]

/-- If the pulse-1 enable bit is clear, the pulse-1 term of the mixer is the
literal 0 and the mixed sample is the mix of 0 with the pulse-2 term. -/
theorem Apu.mixedSample_p1_zero (a : Apu) (h : ¬ a.enabled &&& 0x01 = 0x01) :
    a.mixedSample = 0.00752 * (0 + a.pulse2Val) + (0.00851 * 0 + 0.00494 * 0 + 0.00335 * 0) := by
  unfold Apu.mixedSample Apu.pulse1Val
  rw [if_neg h]

theorem Apu.mixedSample_p2_zero (a : Apu) (h : ¬ a.enabled &&& 0x02 = 0x02) :
    a.mixedSample = 0.00752 * (a.pulse1Val + 0) + (0.00851 * 0 + 0.00494 * 0 + 0.00335 * 0) := by
  unfold Apu.mixedSample Apu.pulse2Val
  rw [if_neg h]

theorem Apu.pulse1Val_zero (a : Apu) (h : ¬ a.enabled &&& 0x01 = 0x01) :
    a.pulse1Val = 0 := by
  unfold Apu.pulse1Val
  rw [if_neg h]

theorem Apu.pulse2Val_zero (a : Apu) (h : ¬ a.enabled &&& 0x02 = 0x02) :
    a.pulse2Val = 0 := by
  unfold Apu.pulse2Val
  rw [if_neg h]

theorem Apu.set_enabled_flags_spec (a : Apu) (v : Nat) :
    (a.set_enabled_flags v).enabled = v &&& 0x1F ∧
    (¬ (v &&& 0x1F) &&& 0x01 = 0x01 →
      (a.set_enabled_flags v).pulse1.length_counter.length = 0) ∧
    (¬ (v &&& 0x1F) &&& 0x02 = 0x02 →
      (a.set_enabled_flags v).pulse2.length_counter.length = 0) := by
  unfold Apu.set_enabled_flags
  dsimp only
  by_cases h1 : (v &&& 0x1F) &&& 0x01 = 0x01 <;>
    by_cases h2 : (v &&& 0x1F) &&& 0x02 = 0x02 <;>
      simp_all

/-- With the pulse-1 enable bit clear, every sample the APU pushes from now
on mixes a zero pulse-1 term. -/
theorem Apu.tickN_samples_p1 (a : Apu) (h : ¬ a.enabled &&& 0x01 = 0x01) (m : Nat) :
    ∃ l, (a.tickN m).samples = a.samples ++ l ∧
      ∀ s ∈ l, ∃ q, s = 0.00752 * (0 + q) + (0.00851 * 0 + 0.00494 * 0 + 0.00335 * 0) := by
  induction m with
  | zero => exact ⟨[], by simp [Apu.tickN], by simp⟩
  | succ m ih =>
      obtain ⟨l, hl, hall⟩ := ih
      have hben : (a.tickN m).enabled = a.enabled := Apu.tickN_enabled a m
      have hb2 : ((a.tickN m).pulseTickStep).frameStep.enabled = a.enabled := by
        rw [Apu.frameStep_enabled, Apu.pulseTickStep_enabled, hben]
      have htick : (a.tickN (m + 1)).samples =
          (((a.tickN m).pulseTickStep).frameStep).sampleStep.samples := rfl
      rcases Apu.sampleStep_samples (((a.tickN m).pulseTickStep).frameStep) with hs | hs
      · refine ⟨l, ?_, hall⟩
        rw [htick, hs, Apu.frameStep_samples, Apu.pulseTickStep_samples, hl]
      · refine ⟨l ++ [(((a.tickN m).pulseTickStep).frameStep).mixedSample], ?_, ?_⟩
        · rw [htick, hs, Apu.frameStep_samples, Apu.pulseTickStep_samples, hl,
            List.append_assoc]
        · intro s hs2
          rcases List.mem_append.mp hs2 with hmem | hmem
          · exact hall s hmem
          · have hseq : s = (((a.tickN m).pulseTickStep).frameStep).mixedSample :=
              List.mem_singleton.mp hmem
            refine ⟨(((a.tickN m).pulseTickStep).frameStep).pulse2Val, ?_⟩
            rw [hseq]
            exact Apu.mixedSample_p1_zero _ (by rw [hb2]; exact h)

/-- With the pulse-2 enable bit clear, every sample the APU pushes from now
on mixes a zero pulse-2 term. -/
theorem Apu.tickN_samples_p2 (a : Apu) (h : ¬ a.enabled &&& 0x02 = 0x02) (m : Nat) :
    ∃ l, (a.tickN m).samples = a.samples ++ l ∧
      ∀ s ∈ l, ∃ q, s = 0.00752 * (q + 0) + (0.00851 * 0 + 0.00494 * 0 + 0.00335 * 0) := by
  induction m with
  | zero => exact ⟨[], by simp [Apu.tickN], by simp⟩
  | succ m ih =>
      obtain ⟨l, hl, hall⟩ := ih
      have hben : (a.tickN m).enabled = a.enabled := Apu.tickN_enabled a m
      have hb2 : ((a.tickN m).pulseTickStep).frameStep.enabled = a.enabled := by
        rw [Apu.frameStep_enabled, Apu.pulseTickStep_enabled, hben]
      have htick : (a.tickN (m + 1)).samples =
          (((a.tickN m).pulseTickStep).frameStep).sampleStep.samples := rfl
      rcases Apu.sampleStep_samples (((a.tickN m).pulseTickStep).frameStep) with hs | hs
      · refine ⟨l, ?_, hall⟩
        rw [htick, hs, Apu.frameStep_samples, Apu.pulseTickStep_samples, hl]
      · refine ⟨l ++ [(((a.tickN m).pulseTickStep).frameStep).mixedSample], ?_, ?_⟩
        · rw [htick, hs, Apu.frameStep_samples, Apu.pulseTickStep_samples, hl,
            List.append_assoc]
        · intro s hs2
          rcases List.mem_append.mp hs2 with hmem | hmem
          · exact hall s hmem
          · have hseq : s = (((a.tickN m).pulseTickStep).frameStep).mixedSample :=
              List.mem_singleton.mp hmem
            refine ⟨(((a.tickN m).pulseTickStep).frameStep).pulse1Val, ?_⟩
            rw [hseq]
            exact Apu.mixedSample_p2_zero _ (by rw [hb2]; exact h)

theorem and_1F_and_01 (v : Nat) : (v &&& 0x1F) &&& 0x01 = v &&& 0x01 := by
  rw [Nat.and_assoc]
  have h31 : (0x1F : Nat) &&& 0x01 = 0x01 := by decide
  rw [h31]

theorem and_1F_and_02 (v : Nat) : (v &&& 0x1F) &&& 0x02 = v &&& 0x02 := by
  rw [Nat.and_assoc]
  have h31 : (0x1F : Nat) &&& 0x02 = 0x02 := by decide
  rw [h31]

/-- C7: writing a value with a pulse channel's enable bit clear to register
0x4015 forces that channel's length counter to zero, makes that channel's
term in the mixer sum zero in every subsequently reachable APU state (with
no further register writes), and hence every sample pushed from then on has
a zero contribution from that channel; the triangle, noise and DMC terms
are the literal 0 in the mixer. -/
theorem C7_disable_forces_silence (a : Apu) (v : Nat) :
    (v &&& 0x01 = 0 →
      (a.set_register 0x4015 v).pulse1.length_counter.length = 0 ∧
      (∀ m, ((a.set_register 0x4015 v).tickN m).pulse1Val = 0) ∧
      (∀ m, ∃ l, ((a.set_register 0x4015 v).tickN m).samples =
          (a.set_register 0x4015 v).samples ++ l ∧
        ∀ s ∈ l, ∃ q, s = 0.00752 * (0 + q) + (0.00851 * 0 + 0.00494 * 0 + 0.00335 * 0))) ∧
    (v &&& 0x02 = 0 →
      (a.set_register 0x4015 v).pulse2.length_counter.length = 0 ∧
      (∀ m, ((a.set_register 0x4015 v).tickN m).pulse2Val = 0) ∧
      (∀ m, ∃ l, ((a.set_register 0x4015 v).tickN m).samples =
          (a.set_register 0x4015 v).samples ++ l ∧
        ∀ s ∈ l, ∃ q, s = 0.00752 * (q + 0) + (0.00851 * 0 + 0.00494 * 0 + 0.00335 * 0))) := by
  have hreg : a.set_register 0x4015 v = a.set_enabled_flags v := rfl
  constructor
  · intro hbit
    have h1 : ¬ (v &&& 0x1F) &&& 0x01 = 0x01 := by
      rw [and_1F_and_01, hbit]
      omega
    have hen : ¬ (a.set_register 0x4015 v).enabled &&& 0x01 = 0x01 := by
      rw [hreg, (Apu.set_enabled_flags_spec a v).1]
      exact h1
    refine ⟨?_, ?_, ?_⟩
    · rw [hreg]
      exact (Apu.set_enabled_flags_spec a v).2.1 h1
    · intro m
      apply Apu.pulse1Val_zero
      rw [Apu.tickN_enabled]
      exact hen
    · intro m
      exact Apu.tickN_samples_p1 _ hen m
  · intro hbit
    have h2 : ¬ (v &&& 0x1F) &&& 0x02 = 0x02 := by
      rw [and_1F_and_02, hbit]
      omega
    have hen : ¬ (a.set_register 0x4015 v).enabled &&& 0x02 = 0x02 := by
      rw [hreg, (Apu.set_enabled_flags_spec a v).1]
      exact h2
    refine ⟨?_, ?_, ?_⟩
    · rw [hreg]
      exact (Apu.set_enabled_flags_spec a v).2.2 h2
    · intro m
      apply Apu.pulse2Val_zero
      rw [Apu.tickN_enabled]
      exact hen
    · intro m
      exact Apu.tickN_samples_p2 _ hen m

/-- Closed instance of the C7 theorem: disabling every channel zeroes the
pulse-1 length counter and its mixer term in later states. -/
theorem C7_witness :
    (apu_c7.set_register 0x4015 0).pulse1.length_counter.length = 0 ∧
    ((apu_c7.set_register 0x4015 0).tickN 2).pulse1Val = 0 :=
  ⟨((C7_disable_forces_silence apu_c7 0).1 (by decide)).1,
   ((C7_disable_forces_silence apu_c7 0).1 (by decide)).2.1 2⟩

/-- Status::set never touches bit 4 when the mask has bit 4 clear. -/
theorem Status.set_testBit4 (p mask : Nat) (b : Bool) (hm : mask.testBit 4 = false) :
    (Status.set p mask b).testBit 4 = p.testBit 4 := by
  unfold Status.set
  split
  · rw [Nat.testBit_or, hm, Bool.or_false]
  · rw [Nat.testBit_and, Nat.testBit_xor, hm,
      show (0xFF : Nat).testBit 4 = true from by decide]
    simp

/-- Status::from_bits_truncate always clears bit 4 (no flag is defined
there). -/
theorem Status.from_bits_truncate_testBit4 (v : Nat) :
    (Status.from_bits_truncate v).testBit 4 = false := by
  unfold Status.from_bits_truncate Status.ALL
  rw [Nat.testBit_and, show (0xEF : Nat).testBit 4 = false from by decide,
    Bool.and_false]

@[simp] theorem Cpu.set_carry_tb4 (st : Cpu) (b : Bool) :
    (st.set_carry b).p.testBit 4 = st.p.testBit 4 :=
  Status.set_testBit4 st.p Status.CARRY b (by decide)

@[simp] theorem Cpu.set_zero_tb4 (st : Cpu) (b : Bool) :
    (st.set_zero b).p.testBit 4 = st.p.testBit 4 :=
  Status.set_testBit4 st.p Status.ZERO b (by decide)

@[simp] theorem Cpu.set_interrupt_disable_tb4 (st : Cpu) (b : Bool) :
    (st.set_interrupt_disable b).p.testBit 4 = st.p.testBit 4 :=
  Status.set_testBit4 st.p Status.INTERRUPT_DISABLE b (by decide)

@[simp] theorem Cpu.set_decimal_tb4 (st : Cpu) (b : Bool) :
    (st.set_decimal b).p.testBit 4 = st.p.testBit 4 :=
  Status.set_testBit4 st.p Status.DECIMAL b (by decide)

@[simp] theorem Cpu.set_overflow_tb4 (st : Cpu) (b : Bool) :
    (st.set_overflow b).p.testBit 4 = st.p.testBit 4 :=
  Status.set_testBit4 st.p Status.OVERFLOW b (by decide)

@[simp] theorem Cpu.set_negative_tb4 (st : Cpu) (b : Bool) :
    (st.set_negative b).p.testBit 4 = st.p.testBit 4 :=
  Status.set_testBit4 st.p Status.NEGATIVE b (by decide)

@[simp] theorem Cpu.set_value_flags_tb4 (st : Cpu) (v : Nat) :
    (st.set_value_flags v).p.testBit 4 = st.p.testBit 4 := by
  unfold Cpu.set_value_flags
  rw [Cpu.set_zero_tb4, Cpu.set_negative_tb4]

@[simp] theorem Cpu.mem_write_p (st : Cpu) (addr v : Nat) :
    (st.mem_write addr v).p = st.p := by
  unfold Cpu.mem_write
  split <;> rfl

@[simp] theorem Cpu.stack_push_p (st : Cpu) (d : Nat) :
    (st.stack_push d).p = st.p := by
  unfold Cpu.stack_push
  simp

@[simp] theorem Cpu.stack_pop_p (st : Cpu) : (st.stack_pop).1.p = st.p := rfl

@[simp] theorem Cpu.interrupt_p (st : Cpu) (m v : Nat) :
    (st.interrupt m v).p = st.p := by
  unfold Cpu.interrupt
  simp

@[simp] theorem Cpu.set_pause_p (st : Cpu) (pause : Nat) (op : Opcode) (c : Bool) :
    (st.set_pause_and_return_shift pause op c).1.p = st.p := rfl

theorem Cpu.group1_p {st : Cpu} {op : Opcode} {c : Bool} {out : Cpu × Nat}
    (h : st.group_1_pause_and_shift op c = some out) : out.1.p = st.p := by
  unfold Cpu.group_1_pause_and_shift at h
  split at h
  all_goals try (injection h with h2; cases h2; rfl)
  all_goals simp at h

theorem Cpu.illegal_pause_p {st : Cpu} {op : Opcode} {c : Bool} {out : Cpu × Nat}
    (h : st.illegal_pause_and_shift op c = some out) : out.1.p = st.p := by
  unfold Cpu.illegal_pause_and_shift at h
  split at h
  all_goals try (injection h with h2; cases h2; rfl)
  all_goals simp at h

theorem Cpu.adc_tb4 {st : Cpu} {op : Opcode} {out : Cpu × Nat}
    (h : st.adc op = some out) : out.1.p.testBit 4 = st.p.testBit 4 := by
  unfold Cpu.adc at h
  rw [Cpu.group1_p h]
  simp

theorem Cpu.sbc_tb4 {st : Cpu} {op : Opcode} {out : Cpu × Nat}
    (h : st.sbc op = some out) : out.1.p.testBit 4 = st.p.testBit 4 := by
  unfold Cpu.sbc at h
  rw [Cpu.group1_p h]
  simp

theorem Cpu.and_tb4 {st : Cpu} {op : Opcode} {out : Cpu × Nat}
    (h : st.and op = some out) : out.1.p.testBit 4 = st.p.testBit 4 := by
  unfold Cpu.and at h
  rw [Cpu.group1_p h]
  simp

theorem Cpu.eor_tb4 {st : Cpu} {op : Opcode} {out : Cpu × Nat}
    (h : st.eor op = some out) : out.1.p.testBit 4 = st.p.testBit 4 := by
  unfold Cpu.eor at h
  rw [Cpu.group1_p h]
  simp

theorem Cpu.ora_tb4 {st : Cpu} {op : Opcode} {out : Cpu × Nat}
    (h : st.ora op = some out) : out.1.p.testBit 4 = st.p.testBit 4 := by
  unfold Cpu.ora at h
  rw [Cpu.group1_p h]
  simp

theorem Cpu.lda_tb4 {st : Cpu} {op : Opcode} {out : Cpu × Nat}
    (h : st.lda op = some out) : out.1.p.testBit 4 = st.p.testBit 4 := by
  unfold Cpu.lda at h
  rw [Cpu.group1_p h]
  simp

theorem Cpu.ldx_tb4 {st : Cpu} {op : Opcode} {out : Cpu × Nat}
    (h : st.ldx op = some out) : out.1.p.testBit 4 = st.p.testBit 4 := by
  unfold Cpu.ldx at h
  rw [Cpu.group1_p h]
  simp

theorem Cpu.ldy_tb4 {st : Cpu} {op : Opcode} {out : Cpu × Nat}
    (h : st.ldy op = some out) : out.1.p.testBit 4 = st.p.testBit 4 := by
  unfold Cpu.ldy at h
  rw [Cpu.group1_p h]
  simp

theorem Cpu.compare_tb4 {st : Cpu} {op : Opcode} {reg : Nat} {out : Cpu × Nat}
    (h : st.compare_op op reg = some out) : out.1.p.testBit 4 = st.p.testBit 4 := by
  unfold Cpu.compare_op at h
  rw [Cpu.group1_p h]
  simp

@[simp] theorem Cpu.rol_internal_tb4 (st : Cpu) (v : Nat) :
    (st.rol_internal v).1.p.testBit 4 = st.p.testBit 4 := by
  simp [Cpu.rol_internal]

@[simp] theorem Cpu.ror_internal_tb4 (st : Cpu) (v : Nat) :
    (st.ror_internal v).1.p.testBit 4 = st.p.testBit 4 := by
  simp [Cpu.ror_internal]

@[simp] theorem Cpu.aslApply_tb4 (st : Cpu) (op : Opcode) :
    (st.aslApply op).p.testBit 4 = st.p.testBit 4 := by
  unfold Cpu.aslApply
  split <;> simp

@[simp] theorem Cpu.lsrApply_tb4 (st : Cpu) (op : Opcode) :
    (st.lsrApply op).p.testBit 4 = st.p.testBit 4 := by
  unfold Cpu.lsrApply
  split <;> simp

@[simp] theorem Cpu.rolApply_tb4 (st : Cpu) (op : Opcode) :
    (st.rolApply op).p.testBit 4 = st.p.testBit 4 := by
  unfold Cpu.rolApply
  split <;> simp

@[simp] theorem Cpu.rorApply_tb4 (st : Cpu) (op : Opcode) :
    (st.rorApply op).p.testBit 4 = st.p.testBit 4 := by
  unfold Cpu.rorApply
  split <;> simp

theorem Cpu.asl_tb4 {st : Cpu} {op : Opcode} {out : Cpu × Nat}
    (h : st.asl op = some out) : out.1.p.testBit 4 = st.p.testBit 4 := by
  unfold Cpu.asl at h
  dsimp only at h
  split at h
  all_goals try (injection h with h2; cases h2; simp)
  all_goals simp at h

theorem Cpu.lsr_tb4 {st : Cpu} {op : Opcode} {out : Cpu × Nat}
    (h : st.lsr op = some out) : out.1.p.testBit 4 = st.p.testBit 4 := by
  unfold Cpu.lsr at h
  dsimp only at h
  split at h
  all_goals try (injection h with h2; cases h2; simp)
  all_goals simp at h

theorem Cpu.rol_tb4 {st : Cpu} {op : Opcode} {out : Cpu × Nat}
    (h : st.rol op = some out) : out.1.p.testBit 4 = st.p.testBit 4 := by
  unfold Cpu.rol at h
  dsimp only at h
  split at h
  all_goals try (injection h with h2; cases h2; simp)
  all_goals simp at h

theorem Cpu.ror_tb4 {st : Cpu} {op : Opcode} {out : Cpu × Nat}
    (h : st.ror op = some out) : out.1.p.testBit 4 = st.p.testBit 4 := by
  unfold Cpu.ror at h
  dsimp only at h
  split at h
  all_goals try (injection h with h2; cases h2; simp)
  all_goals simp at h

theorem Cpu.bit_tb4 {st : Cpu} {op : Opcode} {out : Cpu × Nat}
    (h : st.bit op = some out) : out.1.p.testBit 4 = st.p.testBit 4 := by
  unfold Cpu.bit at h
  dsimp only at h
  split at h
  all_goals try (injection h with h2; cases h2; simp)
  all_goals simp at h

@[simp] theorem Cpu.increment_tb4 (st : Cpu) (v : Nat) (op : Opcode) (d : Bool) :
    (st.increment v op d).1.p.testBit 4 = st.p.testBit 4 := by
  unfold Cpu.increment
  dsimp only
  split <;> simp

@[simp] theorem Cpu.dec_tb4 (st : Cpu) (op : Opcode) :
    (st.dec op).1.p.testBit 4 = st.p.testBit 4 := by
  unfold Cpu.dec
  simp

@[simp] theorem Cpu.inc_tb4 (st : Cpu) (op : Opcode) :
    (st.inc op).1.p.testBit 4 = st.p.testBit 4 := by
  unfold Cpu.inc
  simp

@[simp] theorem Cpu.dex_tb4 (st : Cpu) (op : Opcode) :
    (st.dex op).1.p.testBit 4 = st.p.testBit 4 := by
  unfold Cpu.dex
  simp

@[simp] theorem Cpu.dey_tb4 (st : Cpu) (op : Opcode) :
    (st.dey op).1.p.testBit 4 = st.p.testBit 4 := by
  unfold Cpu.dey
  simp

@[simp] theorem Cpu.inx_tb4 (st : Cpu) (op : Opcode) :
    (st.inx op).1.p.testBit 4 = st.p.testBit 4 := by
  unfold Cpu.inx
  simp

@[simp] theorem Cpu.iny_tb4 (st : Cpu) (op : Opcode) :
    (st.iny op).1.p.testBit 4 = st.p.testBit 4 := by
  unfold Cpu.iny
  simp

theorem Cpu.branch_p (st : Cpu) (op : Opcode) (b : Bool) :
    (st.branch_op op b).1.p = st.p := by
  unfold Cpu.branch_op
  dsimp only
  split <;> rfl

theorem Cpu.brk_p (st : Cpu) (op : Opcode) : (st.brk op).1.p = st.p := by
  unfold Cpu.brk
  dsimp only
  split <;> simp

theorem Cpu.jsr_p (st : Cpu) (op : Opcode) : (st.jsr op).1.p = st.p := by
  unfold Cpu.jsr
  simp

theorem Cpu.nop_p (st : Cpu) (op : Opcode) : (st.nop op).1.p = st.p := rfl

theorem Cpu.php_p (st : Cpu) (op : Opcode) : (st.php op).1.p = st.p := by
  unfold Cpu.php
  simp

theorem Cpu.pha_p (st : Cpu) (op : Opcode) : (st.pha op).1.p = st.p := by
  unfold Cpu.pha
  simp

theorem Cpu.pla_tb4 (st : Cpu) (op : Opcode) :
    (st.pla op).1.p.testBit 4 = st.p.testBit 4 := by
  unfold Cpu.pla
  simp

theorem Cpu.plp_tb4 (st : Cpu) (op : Opcode) :
    (st.plp op).1.p.testBit 4 = false := by
  unfold Cpu.plp
  simp [Status.from_bits_truncate_testBit4]

theorem Cpu.rts_p (st : Cpu) (op : Opcode) : (st.rts op).1.p = st.p := rfl

theorem Cpu.rti_tb4 (st : Cpu) (op : Opcode) :
    (st.rti op).1.p.testBit 4 = false := by
  unfold Cpu.rti
  dsimp only
  rw [Cpu.rts_p]
  simp [Status.from_bits_truncate_testBit4]

theorem Cpu.jmp_p {st : Cpu} {op : Opcode} {out : Cpu × Nat}
    (h : st.jmp op = some out) : out.1.p = st.p := by
  unfold Cpu.jmp at h
  dsimp only at h
  split at h
  all_goals try (injection h with h2; cases h2; rfl)
  all_goals simp at h

theorem Cpu.sax_p {st : Cpu} {op : Opcode} {out : Cpu × Nat}
    (h : st.sax op = some out) : out.1.p = st.p := by
  unfold Cpu.sax at h
  dsimp only at h
  split at h
  all_goals try (injection h with h2; cases h2; simp)
  all_goals simp at h

theorem Cpu.store_p {st : Cpu} {op : Opcode} {v : Nat} {out : Cpu × Nat}
    (h : st.store op v = some out) : out.1.p = st.p := by
  unfold Cpu.store at h
  dsimp only at h
  split at h
  all_goals try (injection h with h2; cases h2; simp)
  all_goals simp at h

theorem Cpu.transfer_op_tb4 {st : Cpu} {f : Cpu → Cpu × Nat × Bool}
    (hf : (f st).1.p = st.p) : (st.transfer_op f).1.p.testBit 4 = st.p.testBit 4 := by
  unfold Cpu.transfer_op
  dsimp only
  split <;> simp [hf]

theorem Cpu.flag_op_p (st : Cpu) (f : Cpu → Cpu) : (st.flag_op f).1.p = (f st).p := rfl

theorem Cpu.lax_tb4 {st : Cpu} {op : Opcode} {out : Cpu × Nat}
    (h : st.lax op = some out) : out.1.p.testBit 4 = st.p.testBit 4 := by
  unfold Cpu.lax at h
  cases hl : st.lda op with
  | none =>
      rw [hl] at h
      simp at h
  | some r1 =>
      rw [hl] at h
      dsimp only at h
      have ht := @Cpu.transfer_op_tb4 r1.1 (fun cpu => ({ cpu with x := cpu.a }, cpu.a, true)) rfl
      split at h
      all_goals try (injection h with h2; cases h2; simp [ht, Cpu.lda_tb4 hl])
      all_goals simp at h

theorem Cpu.dcpStep_tb4 {st : Cpu} {op : Opcode} {st2 : Cpu}
    (h : Cpu.dcpStep st op = some st2) : st2.p.testBit 4 = st.p.testBit 4 := by
  unfold Cpu.dcpStep at h
  dsimp only at h
  obtain ⟨r, hr, hb⟩ := Option.map_eq_some'.mp h
  cases hb
  rw [Cpu.compare_tb4 hr, Cpu.dec_tb4]

theorem Cpu.iscStep_tb4 {st : Cpu} {op : Opcode} {st2 : Cpu}
    (h : Cpu.iscStep st op = some st2) : st2.p.testBit 4 = st.p.testBit 4 := by
  unfold Cpu.iscStep at h
  dsimp only at h
  obtain ⟨r, hr, hb⟩ := Option.map_eq_some'.mp h
  cases hb
  rw [Cpu.sbc_tb4 hr, Cpu.inc_tb4]

theorem Cpu.sloStep_tb4 {st : Cpu} {op : Opcode} {st2 : Cpu}
    (h : Cpu.sloStep st op = some st2) : st2.p.testBit 4 = st.p.testBit 4 := by
  unfold Cpu.sloStep at h
  cases ha : st.asl op with
  | none =>
      rw [ha] at h
      simp at h
  | some r =>
      rw [ha] at h
      obtain ⟨r2, hr2, hb⟩ := Option.map_eq_some'.mp h
      cases hb
      rw [Cpu.ora_tb4 hr2, Cpu.asl_tb4 ha]

theorem Cpu.sreStep_tb4 {st : Cpu} {op : Opcode} {st2 : Cpu}
    (h : Cpu.sreStep st op = some st2) : st2.p.testBit 4 = st.p.testBit 4 := by
  unfold Cpu.sreStep at h
  cases ha : st.lsr op with
  | none =>
      rw [ha] at h
      simp at h
  | some r =>
      rw [ha] at h
      obtain ⟨r2, hr2, hb⟩ := Option.map_eq_some'.mp h
      cases hb
      rw [Cpu.eor_tb4 hr2, Cpu.lsr_tb4 ha]

theorem Cpu.rraStep_tb4 {st : Cpu} {op : Opcode} {st2 : Cpu}
    (h : Cpu.rraStep st op = some st2) : st2.p.testBit 4 = st.p.testBit 4 := by
  unfold Cpu.rraStep at h
  cases ha : st.ror op with
  | none =>
      rw [ha] at h
      simp at h
  | some r =>
      rw [ha] at h
      obtain ⟨r2, hr2, hb⟩ := Option.map_eq_some'.mp h
      cases hb
      rw [Cpu.adc_tb4 hr2, Cpu.ror_tb4 ha]

theorem Cpu.rlaStep_tb4 {st : Cpu} {op : Opcode} {st2 : Cpu}
    (h : Cpu.rlaStep st op = some st2) : st2.p.testBit 4 = st.p.testBit 4 := by
  unfold Cpu.rlaStep at h
  cases ha : st.rol op with
  | none =>
      rw [ha] at h
      simp at h
  | some r =>
      rw [ha] at h
      obtain ⟨r2, hr2, hb⟩ := Option.map_eq_some'.mp h
      cases hb
      rw [Cpu.and_tb4 hr2, Cpu.rol_tb4 ha]

theorem Cpu.illegal_op_tb4 {st : Cpu} {op : Opcode} {f : Cpu → Opcode → Option Cpu}
    {out : Cpu × Nat}
    (hstep : ∀ st1, f st op = some st1 → st1.p.testBit 4 = st.p.testBit 4)
    (h : st.illegal_op op f = some out) : out.1.p.testBit 4 = st.p.testBit 4 := by
  unfold Cpu.illegal_op at h
  cases hf : f st op with
  | none =>
      rw [hf] at h
      simp at h
  | some st1 =>
      rw [hf] at h
      rw [Cpu.illegal_pause_p h]
      exact hstep st1 hf

/-- No opcode dispatch can set bit 4 of P: every handler either preserves
it or (PLP, RTI) rebuilds P through from_bits_truncate, which clears it. -/
theorem Cpu.execute_inner_pok {st : Cpu} {op : Opcode} {out : Cpu × Nat}
    (h : st.execute_inner op = some out) (hp : st.p.testBit 4 = false) :
    out.1.p.testBit 4 = false := by
  cases hop : op.op <;> simp only [Cpu.execute_inner, hop] at h
  case ADC => rw [Cpu.adc_tb4 h]; exact hp
  case AND => rw [Cpu.and_tb4 h]; exact hp
  case ASL => rw [Cpu.asl_tb4 h]; exact hp
  case BIT => rw [Cpu.bit_tb4 h]; exact hp
  case BRK => cases h; rw [Cpu.brk_p]; exact hp
  case EOR => rw [Cpu.eor_tb4 h]; exact hp
  case DEC => cases h; rw [Cpu.dec_tb4]; exact hp
  case DEX => cases h; rw [Cpu.dex_tb4]; exact hp
  case DEY => cases h; rw [Cpu.dey_tb4]; exact hp
  case INC => cases h; rw [Cpu.inc_tb4]; exact hp
  case INX => cases h; rw [Cpu.inx_tb4]; exact hp
  case INY => cases h; rw [Cpu.iny_tb4]; exact hp
  case JMP => rw [Cpu.jmp_p h]; exact hp
  case JSR => cases h; rw [Cpu.jsr_p]; exact hp
  case LDA => rw [Cpu.lda_tb4 h]; exact hp
  case LDX => rw [Cpu.ldx_tb4 h]; exact hp
  case LDY => rw [Cpu.ldy_tb4 h]; exact hp
  case LSR => rw [Cpu.lsr_tb4 h]; exact hp
  case NOP => cases h; rw [Cpu.nop_p]; exact hp
  case ORA => rw [Cpu.ora_tb4 h]; exact hp
  case PHP => cases h; rw [Cpu.php_p]; exact hp
  case PHA => cases h; rw [Cpu.pha_p]; exact hp
  case PLA => cases h; rw [Cpu.pla_tb4]; exact hp
  case PLP => cases h; exact Cpu.plp_tb4 st op
  case ROL => rw [Cpu.rol_tb4 h]; exact hp
  case ROR => rw [Cpu.ror_tb4 h]; exact hp
  case RTI => cases h; exact Cpu.rti_tb4 st op
  case RTS => cases h; rw [Cpu.rts_p]; exact hp
  case SBC => rw [Cpu.sbc_tb4 h]; exact hp
  case STA => rw [Cpu.store_p h]; exact hp
  case STX => rw [Cpu.store_p h]; exact hp
  case STY => rw [Cpu.store_p h]; exact hp
  case LAX => rw [Cpu.lax_tb4 h]; exact hp
  case SAX => rw [Cpu.sax_p h]; exact hp
  case DCP => rw [Cpu.illegal_op_tb4 (fun s1 hs => Cpu.dcpStep_tb4 hs) h]; exact hp
  case ISC => rw [Cpu.illegal_op_tb4 (fun s1 hs => Cpu.iscStep_tb4 hs) h]; exact hp
  case SLO => rw [Cpu.illegal_op_tb4 (fun s1 hs => Cpu.sloStep_tb4 hs) h]; exact hp
  case SRE => rw [Cpu.illegal_op_tb4 (fun s1 hs => Cpu.sreStep_tb4 hs) h]; exact hp
  case RRA => rw [Cpu.illegal_op_tb4 (fun s1 hs => Cpu.rraStep_tb4 hs) h]; exact hp
  case RLA => rw [Cpu.illegal_op_tb4 (fun s1 hs => Cpu.rlaStep_tb4 hs) h]; exact hp
  case CMP => rw [Cpu.compare_tb4 h]; exact hp
  case CPX => rw [Cpu.compare_tb4 h]; exact hp
  case CPY => rw [Cpu.compare_tb4 h]; exact hp
  case BCS => cases h; rw [Cpu.branch_p]; exact hp
  case BCC => cases h; rw [Cpu.branch_p]; exact hp
  case BEQ => cases h; rw [Cpu.branch_p]; exact hp
  case BNE => cases h; rw [Cpu.branch_p]; exact hp
  case BVS => cases h; rw [Cpu.branch_p]; exact hp
  case BVC => cases h; rw [Cpu.branch_p]; exact hp
  case BMI => cases h; rw [Cpu.branch_p]; exact hp
  case BPL => cases h; rw [Cpu.branch_p]; exact hp
  case SEC => cases h; rw [Cpu.flag_op_p]; rw [Cpu.set_carry_tb4]; exact hp
  case SED => cases h; rw [Cpu.flag_op_p]; rw [Cpu.set_decimal_tb4]; exact hp
  case SEI => cases h; rw [Cpu.flag_op_p]; rw [Cpu.set_interrupt_disable_tb4]; exact hp
  case CLC => cases h; rw [Cpu.flag_op_p]; rw [Cpu.set_carry_tb4]; exact hp
  case CLD => cases h; rw [Cpu.flag_op_p]; rw [Cpu.set_decimal_tb4]; exact hp
  case CLI => cases h; rw [Cpu.flag_op_p]; rw [Cpu.set_interrupt_disable_tb4]; exact hp
  case CLV => cases h; rw [Cpu.flag_op_p]; rw [Cpu.set_overflow_tb4]; exact hp
  case TAX => cases h; rw [Cpu.transfer_op_tb4 rfl]; exact hp
  case TAY => cases h; rw [Cpu.transfer_op_tb4 rfl]; exact hp
  case TXS => cases h; rw [Cpu.transfer_op_tb4 rfl]; exact hp
  case TSX => cases h; rw [Cpu.transfer_op_tb4 rfl]; exact hp
  case TXA => cases h; rw [Cpu.transfer_op_tb4 rfl]; exact hp
  case TYA => cases h; rw [Cpu.transfer_op_tb4 rfl]; exact hp
  all_goals simp at h

theorem Cpu.execute_opcode_pok {st : Cpu} {op : Opcode} {st2 : Cpu}
    (h : st.execute_opcode op = some st2) (hp : st.p.testBit 4 = false) :
    st2.p.testBit 4 = false := by
  unfold Cpu.execute_opcode at h
  cases hi : st.execute_inner op with
  | none =>
      rw [hi] at h
      simp at h
  | some r =>
      rw [hi] at h
      injection h with h2
      cases h2
      exact Cpu.execute_inner_pok hi hp

/-- A tick never sets bit 4 of P. -/
theorem Cpu.tick_tb4 {st st2 : Cpu} (h : st.tick = some st2)
    (hp : st.p.testBit 4 = false) : st2.p.testBit 4 = false := by
  unfold Cpu.tick at h
  split at h
  · injection h with h2
    cases h2
    exact hp
  · split at h
    · injection h with h2
      cases h2
      unfold Cpu.nmiStep
      rw [Cpu.interrupt_p]
      exact hp
    · split at h
      · injection h with h2
        cases h2
        unfold Cpu.irqStep
        dsimp only
        split
        · rw [Cpu.interrupt_p]
          exact hp
        · exact hp
      · split at h
        · injection h with h2
          cases h2
          unfold Cpu.resetStep
          rw [Cpu.interrupt_p]
          exact hp
        · exact Cpu.execute_opcode_pok h hp

/-- C9: in every reachable CPU state, bit 4 (0x10) of the status register P
is zero: the Status type defines no flag at bit 4, power-up P is 0x24,
every assignment to P goes through Status set or from_bits_truncate (PLP,
RTI), and PHP and interrupt servicing force bits 4 and 5 only on the copy
pushed to the stack, never on P itself. -/
theorem C9_p_bit4_clear (st : Cpu) (h : Reachable st) : st.p.testBit 4 = false := by
  induction h with
  | init mem tm =>
      unfold Cpu.new
      dsimp only
      split
      · show (Status.BREAK ||| Status.INTERRUPT_DISABLE).testBit 4 = false
        decide
      · show (Status.BREAK ||| Status.INTERRUPT_DISABLE).testBit 4 = false
        decide
  | step hr ht ih => exact Cpu.tick_tb4 ht ih
  | nmiLatch hr ih => exact ih
  | irqLatch hr ih => exact ih
  | resetLatch hr ih => exact ih

/-- Closed instance of the C9 invariant at the power-up state. -/
theorem C9_witness : (Cpu.new (memOf []) true).p.testBit 4 = false :=
  C9_p_bit4_clear (Cpu.new (memOf []) true) (Reachable.init (memOf []) true)

/-- C8: a tick with remaining_pause positive only decrements
remaining_pause; the registers, the latches, the instruction counter and
the memory are unchanged and no instruction is fetched or executed. -/
theorem C8_pause_tick (st : Cpu) (h : 0 < st.remaining_pause) :
    Cpu.tick st = some { st with remaining_pause := st.remaining_pause - 1 } := by
  unfold Cpu.tick
  rw [if_pos h]

/-- Closed instance of the C8 theorem at a concrete paused state. -/
theorem C8_witness :
    Cpu.tick { Cpu.new (memOf []) true with remaining_pause := 2 } =
      some { Cpu.new (memOf []) true with remaining_pause := 1 } :=
  C8_pause_tick { Cpu.new (memOf []) true with remaining_pause := 2 } (by norm_num)

/-- C1 (counterexample): with irq latched and InterruptDisable set, tick()
still clears the irq latch (the claim says it is not cleared) and returns
without falling through to the reset check or an opcode fetch (reset stays
latched, PC and the instruction counter are unchanged). -/
theorem C1_counterexample :
    (Cpu.tick cpu_c1_cex).map (fun s => (s.irq, s.reset, s.pc, s.instruction_counter)) =
      some (false, true, 0x8000, 0) := by
  rfl

/-- C1 (amended): with remaining_pause = 0 and no NMI latched, if irq is
latched then tick() always clears the irq latch; it services the IRQ
(pushing PC and P|0x30 and loading the IRQ vector) exactly when
InterruptDisable is clear, and when InterruptDisable is set it returns
after only clearing the latch, without the reset check and without
fetching an opcode. -/
theorem C1_irq_tick (st : Cpu) (hp : st.remaining_pause = 0) (hn : st.nmi = false)
    (hi : st.irq = true) :
    (st.interrupt_disabled = false →
      Cpu.tick st = some (Cpu.interrupt { st with irq := false } 0x30 IRQ_VECTOR)) ∧
    (st.interrupt_disabled = true →
      Cpu.tick st = some { st with irq := false }) := by
  obtain ⟨mem, a, x, y, pc, s, p, nmi, irq, reset, pause, ic⟩ := st
  dsimp only at hp hn hi
  subst hp
  subst hn
  subst hi
  constructor <;> intro hdis <;>
    simp only [Cpu.interrupt_disabled] at hdis <;>
    simp [Cpu.tick, Cpu.irqStep, Cpu.interrupt_disabled, hdis]

/-- Closed instance of the amended C1 theorem in both the serviced and the
masked case. -/
theorem C1_witness :
    Cpu.tick cpu_c1_w2 = some (Cpu.interrupt { cpu_c1_w2 with irq := false } 0x30 IRQ_VECTOR) ∧
    Cpu.tick cpu_c1_cex = some { cpu_c1_cex with irq := false } :=
  ⟨(C1_irq_tick cpu_c1_w2 rfl rfl rfl).1 rfl,
   (C1_irq_tick cpu_c1_cex rfl rfl rfl).2 rfl⟩

/-- C3 (code evaluation at the failing input): executing STA $4014 does
copy page 0x02 (256 bytes) to the PPU OAM buffer, but leaves
remaining_pause at 3 — the store handler's set_pause_and_return_shift
overwrites the += 513 done by mem_write — instead of the 513 more (516)
the claim requires. -/
theorem C3_sta_4014_evaluation :
    (Cpu.tick cpu_c3).map (fun s => (s.remaining_pause, s.pc, s.mem.oamdma)) =
      some (3, 0x8003, cpu_c3.mem.get_page 0x0200) ∧
    cpu_c3.mem.oamdma = [] ∧
    (cpu_c3.mem.get_page 0x0200).take 2 = [0xAB, 0x00] := by
  refine ⟨rfl, rfl, rfl⟩

/-- C4 (code evaluation at the failing input): with A=0x00, operand 0x80,
C=1 the signed difference A - operand - (1-C) of the claim equals 128,
outside -128..127, so the claim requires V set; the code computes the
reversed difference operand - A - (1-C) and leaves V clear.  The result
byte, C, N and Z agree with the claim, and the spec's concrete borrow
scenario (operand 0x01) holds, V included. -/
theorem C4_sbc_overflow_evaluation :
    (Cpu.tick cpu_c4).map (fun s => (s.a, s.overflow, s.carry, s.negative, s.zero)) =
      some (0x80, false, false, true, false) ∧
    i8 cpu_c4.a - i8 0x80 - (1 - 1) = 128 ∧
    (Cpu.tick cpu_c4b).map (fun s => (s.a, s.negative, s.overflow, s.zero, s.carry)) =
      some (0xFF, true, false, false, false) := by
  refine ⟨rfl, by decide, rfl⟩

end Nes
